import Mathlib

/-!
Verification of the Snapchat-All-Memories-Downloader core pipeline.

This file gives a shallow embedding, in Lean 4, of the concurrent
download-and-merge pipeline of the repository: the data model
(src/memory.py, src/config.py, src/stats.py), the overlay compositor
(src/overlay.py), the archive decomposer (src/zip_processor.py), and the
download orchestration (src/download.py), together with theorems settling
the frozen claims about that code.

Modelling conventions:
- byte strings are lists of naturals;
- filesystem state is an association list from path strings to file
  contents, plus an event trace recording every write / rename / unlink /
  mkdir / network request / external-process invocation;
- outcomes of external collaborators (network, PIL image decoding, the
  ffmpeg subprocess, zip parsing) are supplied by an oracle record
  `ItemEnv`, one per item, so that the embedded control flow is a total
  function of the oracle;
- Python exceptions are modelled by `Except PyErr`; state mutated before
  an exception is raised persists (as in Python);
- Python datetimes are an absolute instant (seconds since the epoch, UTC)
  plus a tzinfo utc-offset in minutes; `astimezone(timezone.utc)` keeps
  the instant and zeroes the offset.
-/

namespace Snap

/-- Byte strings (Python `bytes`) as lists of byte values. -/
abbrev Bytes := List Nat

/-- src/memory.py `MediaType`: exactly `image` or `video`. -/
inductive MediaType
  | image
  | video
deriving DecidableEq, Repr

/-- src/config.py `OverlayMode`: `none` / `with` / `both`. -/
inductive OverlayMode
  | omNone
  | omWith
  | omBoth
deriving DecidableEq, Repr

/-- src/config.py `OverlayNaming`: `single-folder` / `separate-folders`. -/
inductive OverlayNaming
  | singleFolder
  | separateFolders
deriving DecidableEq, Repr

/-- src/config.py module-level configuration, as set by src/args.py.
`filename_pfx` is config.filename_prefix; `save_overlays_only` and
`ocr_metadata` are the attributes installed by args.setup_config. -/
structure Config where
  overlay_mode : OverlayMode
  overlay_naming : OverlayNaming
  output_dir : String
  filename_pfx : String
  skip_existing : Bool
  save_overlays_only : Bool
  ocr_metadata : Bool
  max_concurrent : Nat
  add_exif : Bool
deriving DecidableEq, Repr

/-- src/config.py WITH_OVERLAYS_DIR. -/
def WITH_OVERLAYS_DIR : String := "with_overlays"

/-- src/config.py WITHOUT_OVERLAYS_DIR. -/
def WITHOUT_OVERLAYS_DIR : String := "without_overlays"

/-! ### Datetimes (src/memory.py date handling) -/

/-- A Python timezone-aware datetime: the absolute instant as seconds since
1970-01-01 00:00:00 UTC, plus the tzinfo utc-offset in minutes.
`astimezone(timezone.utc)` keeps `epochSec` and sets the offset to 0. -/
structure PyDatetime where
  epochSec : Nat
  tzOffsetMin : Int
deriving DecidableEq, Repr

/-- Civil calendar date from a count of days since 1970-01-01 (proleptic
Gregorian, standard era-based algorithm); returns (year, month, day). -/
def civilFromDays (z : Nat) : Nat × Nat × Nat :=
  let z' := z + 719468
  let era := z' / 146097
  let doe := z' % 146097
  let yoe := (doe - doe / 1460 + doe / 36524 - doe / 146096) / 365
  let y := yoe + era * 400
  let doy := doe - (365 * yoe + yoe / 4 - yoe / 100)
  let mp := (5 * doy + 2) / 153
  let d := doy - (153 * mp + 2) / 5 + 1
  let m := if mp < 10 then mp + 3 else mp - 9
  (if m ≤ 2 then y + 1 else y, m, d)

/-- Zero-pad a natural to two digits. -/
def pad2 (n : Nat) : String :=
  if n < 10 then "0" ++ toString n else toString n

/-- Zero-pad a natural to four digits (years in scope are ≥ 1970). -/
def pad4 (n : Nat) : String :=
  if n < 10 then "000" ++ toString n
  else if n < 100 then "00" ++ toString n
  else if n < 1000 then "0" ++ toString n
  else toString n

/-- strftime "%Y-%m-%d_%H-%M-%S" applied to the civil time of a given
second count since the epoch. -/
def formatTS (t : Nat) : String :=
  let days := t / 86400
  let sod := t % 86400
  let c := civilFromDays days
  pad4 c.1 ++ "-" ++ pad2 c.2.1 ++ "-" ++ pad2 c.2.2 ++ "_" ++
    pad2 (sod / 3600) ++ "-" ++ pad2 (sod % 3600 / 60) ++ "-" ++ pad2 (sod % 60)

/-- strftime "%Y-%m-%d_%H-%M-%S" of a datetime rendered at a given
utc-offset (minutes): formats the instant shifted by the offset. -/
def formatTSAt (epochSec : Nat) (offsetMin : Int) : String :=
  formatTS ((epochSec : Int) + offsetMin * 60).toNat

/-! ### String and path helpers (pathlib / str methods used by the code)

These are implemented by structural recursion over character lists so
that every definition reduces inside the kernel (the corresponding core
String functions use well-founded recursion and would block `decide`). -/

/-- Join a directory and a component with "/" (pathlib `/`). -/
def pjoin (a b : String) : String := a ++ "/" ++ b

/-- The path separator character. -/
def chSlash : Char := '/'

/-- The extension separator character. -/
def chDot : Char := '.'

/-- Membership of one sequence inside another (Python `sub in s`). -/
def isSeqIn {α : Type} [DecidableEq α] (needle : List α) : List α → Bool
  | [] => needle.isEmpty
  | b :: t => needle.isPrefixOf (b :: t) || isSeqIn needle t

/-- Python `needle in hay` substring test. -/
def strContains (hay needle : String) : Bool :=
  isSeqIn needle.data hay.data

/-- Characters after the last separator. -/
def lastComponent (l : List Char) : List Char :=
  l.foldl (fun acc c => if c = chSlash then [] else acc ++ [c]) []

/-- Final path component (pathlib `.name`). -/
def basename (p : String) : String :=
  String.mk (lastComponent p.data)

/-- All but the final path component (pathlib `.parent`), for paths that
contain a separator. -/
def parentOf (p : String) : String :=
  String.mk (p.data.take (p.data.length - (lastComponent p.data).length - 1))

/-- Python `s.rsplit(".", 1)[0]`: the string up to the last dot, or the
whole string when no dot occurs. -/
def rsplitDot1 (s : String) : String :=
  match s.data.reverse.dropWhile (fun c => ¬ c = chDot) with
  | [] => s
  | _ :: rest => String.mk rest.reverse

/-- pathlib `.stem`: final component minus its last extension (a leading
dot alone does not count as an extension). -/
def stem (p : String) : String :=
  let n := lastComponent p.data
  match n.reverse.dropWhile (fun c => ¬ c = chDot) with
  | [] => String.mk n
  | _ :: rest => if rest.isEmpty then String.mk n else String.mk rest.reverse

/-- Python `s.replace(pat, rep)` for a nonempty pattern: left-to-right,
non-overlapping; fuel-based structural recursion (fuel = length of the
subject suffices). -/
def replaceL (pat rep : List Char) : Nat → List Char → List Char
  | 0, l => l
  | _, [] => []
  | fuel + 1, c :: t =>
    if pat.isPrefixOf (c :: t) then
      rep ++ replaceL pat rep fuel ((c :: t).drop pat.length)
    else c :: replaceL pat rep fuel t

/-- Python `s.replace(pat, rep)`. -/
def strReplace (s pat rep : String) : String :=
  String.mk (replaceL pat.data rep.data s.data.length s.data)

/-- Python `s.endswith(pat)`. -/
def strEndsWith (s pat : String) : Bool :=
  pat.data.isSuffixOf s.data

/-- Is the path inside the directory (the directory's "/"-terminated
name leads the path). -/
def underDir (dir p : String) : Bool :=
  (dir ++ "/").data.isPrefixOf p.data

/-- src/overlay.py line 76: overlay_data.startswith(b'RIFF') and
b'WEBP' in overlay_data[:12]. -/
def isWebpSig (bs : Bytes) : Bool :=
  [0x52, 0x49, 0x46, 0x46].isPrefixOf bs &&
    isSeqIn [0x57, 0x45, 0x42, 0x50] (bs.take 12)

/-! ### Memory (src/memory.py) -/

/-- src/memory.py `Memory`: the fields the core pipeline reads or writes. -/
structure Memory where
  date : PyDatetime
  media_type : MediaType
  media_download_url : String
  download_link : String
  occurrence : Nat
  path_with_overlay : Option String
  path_without_overlay : Option String
  extracted_ocr_text : Option String
deriving DecidableEq, Repr

/-- src/memory.py `Memory.get_filename` (lines 133-149): the filename is
formatted from the UTC rendition of the date; a `_v` suffix is appended
whenever `occurrence >= 1`; `_overlayed` when has_overlay; extension by
media type; an optional configured filename prefix. -/
def Memory.get_filename (cfg : Config) (m : Memory) (has_overlay : Bool)
    (occurrence : Nat) : String :=
  let ext := if m.media_type = MediaType.image then ".jpg" else ".mp4"
  let base_name := formatTS m.date.epochSec
  let version_suffix := if occurrence ≥ 1 then "_v" ++ toString occurrence else ""
  let overlay_suffix := if has_overlay then "_overlayed" else ""
  let pfx := if cfg.filename_pfx ≠ "" then cfg.filename_pfx ++ "_" else ""
  pfx ++ base_name ++ version_suffix ++ overlay_suffix ++ ext

/-! ### Run statistics (src/stats.py) -/

/-- src/stats.py `Stats`. The float megabyte accumulator `mb` is tracked
here as the exact cumulative byte count `mbBytes`. -/
structure Stats where
  downloaded : Nat
  skipped : Nat
  failed : Nat
  overlay_failed : Nat
  mbBytes : Nat
  total_images : Nat
  total_videos : Nat
  images_with_overlay : Nat
  images_without_overlay : Nat
  videos_with_overlay : Nat
  videos_without_overlay : Nat
  extra_images_without_overlay : Nat
  extra_videos_without_overlay : Nat
deriving DecidableEq, Repr

/-- The all-zero statistics record (Stats()). -/
def Stats.init : Stats :=
  ⟨0, 0, 0, 0, 0, 0, 0, 0, 0, 0, 0, 0, 0⟩

/-! ### Filesystem contents, events, item state -/

/-- File contents with provenance: raw bytes, a PIL image composite
(JPEG-encoded main with optional overlay), an ffmpeg video composite, or
a PIL re-encode of overlay bytes (asWebp records the format chosen at
src/overlay.py line 93). -/
inductive Data
  | raw (bs : Bytes)
  | mergedImage (main overlay : Data)
  | flattenedImage (main : Data)
  | mergedVideo (main overlay : Data)
  | reencoded (asWebp : Bool) (d : Data)
deriving DecidableEq, Repr

/-- Observable events of one run: filesystem operations, network requests
and external-process invocations, in chronological order. -/
inductive Ev
  | write (p : String) (d : Data)
  | rename (src dst : String)
  | unlink (p : String)
  | mkdir (p : String)
  | ffmpegRun (mainP overlayP mergedP : String)
  | httpGet (url : String)
  | httpPost (url : String)
  | metaApply (p : String)
deriving DecidableEq, Repr

/-- Python exception classes raised by the embedded code paths. -/
inductive PyErr
  | typeError
  | attributeError
  | valueError
  | httpError
  | imageError
  | runtimeError
  | zipError
deriving DecidableEq, Repr

/-- State threaded through the processing of one item: the item's Memory
record, the filesystem (later writes shadow earlier ones), the event
trace, and the shared run statistics. -/
structure ISt where
  mem : Memory
  files : List (String × Data)
  events : List Ev
  stats : Stats
deriving DecidableEq, Repr

/-- Append an event. -/
def ISt.ev (s : ISt) (e : Ev) : ISt :=
  { s with events := s.events ++ [e] }

/-- Content at a path, if any (latest write wins). -/
def ISt.fileAt (s : ISt) (p : String) : Option Data :=
  (s.files.find? (fun e => e.1 = p)).map (fun e => e.2)

/-- Does a file exist at the path. -/
def ISt.fileExists (s : ISt) (p : String) : Bool :=
  s.files.any (fun e => e.1 = p)

/-- Path.write_bytes / image save: record contents and the write event. -/
def ISt.write (s : ISt) (p : String) (d : Data) : ISt :=
  { s with files := (p, d) :: s.files.filter (fun e => e.1 ≠ p),
           events := s.events ++ [Ev.write p d] }

/-- Path.unlink(missing_ok=True): remove the file if present. -/
def ISt.unlinkMissingOk (s : ISt) (p : String) : ISt :=
  if s.fileExists p then
    { s with files := s.files.filter (fun e => e.1 ≠ p),
             events := s.events ++ [Ev.unlink p] }
  else s

/-- Path.rename: move contents from src to dst. -/
def ISt.renameFile (s : ISt) (src dst : String) : ISt :=
  match s.fileAt src with
  | none => { s with events := s.events ++ [Ev.rename src dst] }
  | some d =>
    let fs := (dst, d) :: s.files.filter (fun e => e.1 ≠ src ∧ e.1 ≠ dst)
    { s with files := fs, events := s.events ++ [Ev.rename src dst] }

/-- mkdir(parents=True, exist_ok=True): recorded as an event only. -/
def ISt.mkdirEv (s : ISt) (p : String) : ISt :=
  s.ev (Ev.mkdir p)

/-- Replace the Memory record. -/
def ISt.setMem (s : ISt) (m : Memory) : ISt :=
  { s with mem := m }

/-- Update the statistics. -/
def ISt.bump (s : ISt) (f : Stats → Stats) : ISt :=
  { s with stats := f s.stats }

/-! ### Per-item oracle for external collaborators -/

/-- Outcomes of all external collaborators touched while processing one
item: network results, zip structure, PIL decode results, ffmpeg exit
codes, and the temporary locations handed out by tempfile. -/
structure ItemEnv where
  cdnOk : Bool
  cdnUrl : String
  fetchOk : Bool
  contentTypeZip : Bool
  body : Bytes
  zipOpenOk : Bool
  zipEntries : List (String × Bytes)
  imgMainOk : Bool
  imgOverlayOk : Bool
  imgSaveOk : Bool
  ffmpeg1Ok : Bool
  pilReOk : Bool
  ffmpeg2Ok : Bool
  zipReadOk : Bool
  ocrText : Option String
  tmpdir : String
  ntfPath : String
deriving DecidableEq, Repr

/-! ### Failure-repair procedure (src/memory.py lines 213-237) -/

/-- src/memory.py `Memory.fix_paths_on_merge_failure`: under `both`,
delete the in-progress with-overlay file (missing_ok) and clear its path;
under `with`, only when the with-overlay file exists on disk, rename it to
the name with the "_overlayed" marker removed and repoint the
without-overlay path at it. -/
def fix_paths_on_merge_failure (mode : OverlayMode) (s : ISt) : ISt :=
  if mode = OverlayMode.omBoth then
    let s :=
      match s.mem.path_with_overlay with
      | some p => s.unlinkMissingOk p
      | none => s
    s.setMem { s.mem with path_with_overlay := none }
  else if mode = OverlayMode.omWith then
    match s.mem.path_with_overlay with
    | some p =>
      if s.fileExists p then
        let new_filename := strReplace (basename p) "_overlayed" ""
        let new_path := pjoin (parentOf p) new_filename
        let s := s.renameFile p new_path
        s.setMem { s.mem with path_without_overlay := some new_path,
                              path_with_overlay := none }
      else s
    | none => s
  else s

/-! ### Image compositing (src/overlay.py lines 13-38) -/

/-- src/overlay.py `merge_image_overlay`: decode the primary (failure
propagates), composite the overlay when present (on overlay failure the
except handler runs fix_paths_on_merge_failure, writes the overlay-free
primary to `memory.path_without_overlay` — an AttributeError when that
path is None — and re-raises), then flatten and JPEG-encode to
output_path. -/
def merge_image_overlay (cfg : Config) (env : ItemEnv) (output_path : String)
    (main_data : Bytes) (overlay_data : Option Bytes) (s : ISt) :
    Except PyErr Unit × ISt :=
  if ¬ env.imgMainOk then (Except.error PyErr.imageError, s)
  else
    match overlay_data with
    | some ov =>
      if env.imgOverlayOk then
        if env.imgSaveOk then
          (Except.ok (),
            s.write output_path (Data.mergedImage (Data.raw main_data) (Data.raw ov)))
        else (Except.error PyErr.imageError, s)
      else
        let s := fix_paths_on_merge_failure cfg.overlay_mode s
        match s.mem.path_without_overlay with
        | none => (Except.error PyErr.attributeError, s)
        | some p =>
          (Except.error PyErr.imageError, s.write p (Data.raw main_data))
    | none =>
      if env.imgSaveOk then
        (Except.ok (),
          s.write output_path (Data.flattenedImage (Data.raw main_data)))
      else (Except.error PyErr.imageError, s)

/-! ### Video compositing (src/overlay.py lines 41-113) -/

/-- src/overlay.py `_try_ffmpeg_merge`: write the overlay bytes to
overlay_path, invoke ffmpeg; on exit code 0 the merged file materializes
at merged_path. -/
def try_ffmpeg_merge (ok : Bool) (main_path overlay_path merged_path : String)
    (overlay_bytes merged : Data) (s : ISt) : Bool × ISt :=
  let s := s.write overlay_path overlay_bytes
  let s := s.ev (Ev.ffmpegRun main_path overlay_path merged_path)
  if ok then (true, s.write merged_path merged) else (false, s)

/-- src/overlay.py lines 105-111, the except block of merge_video_overlay:
run fix_paths_on_merge_failure, write the overlay-free primary to
`memory.path_without_overlay` (AttributeError when None), re-raise
RuntimeError. -/
def merge_video_fallback (cfg : Config) (main_data : Bytes) (s : ISt) :
    Except PyErr Unit × ISt :=
  let s := fix_paths_on_merge_failure cfg.overlay_mode s
  match s.mem.path_without_overlay with
  | none => (Except.error PyErr.attributeError, s)
  | some p => (Except.error PyErr.runtimeError, s.write p (Data.raw main_data))

/-- src/overlay.py `merge_video_overlay`: write the primary into the
private temporary directory; with an overlay, pick the overlay temp name
by the RIFF/WEBP signature (overlay.webp vs overlay.png), attempt the
ffmpeg merge with the original overlay bytes, on failure re-encode the
overlay once through PIL (same container format) and retry the ffmpeg
merge exactly once; on success copy the merged bytes to output_path; on
final failure run the fallback except-block. Without an overlay, write
the primary bytes directly to output_path. -/
def merge_video_overlay (cfg : Config) (env : ItemEnv) (output_path : String)
    (main_data : Bytes) (overlay_data : Option Bytes) (s : ISt) :
    Except PyErr Unit × ISt :=
  let main_path := pjoin env.tmpdir "main.mp4"
  let merged_path := pjoin env.tmpdir "merged.mp4"
  let s := s.write main_path (Data.raw main_data)
  match overlay_data with
  | some ov =>
    let is_webp := isWebpSig ov
    let overlay_path :=
      pjoin env.tmpdir (if is_webp then "overlay.webp" else "overlay.png")
    let merged1 := Data.mergedVideo (Data.raw main_data) (Data.raw ov)
    match try_ffmpeg_merge env.ffmpeg1Ok main_path overlay_path merged_path
        (Data.raw ov) merged1 s with
    | (true, s) => (Except.ok (), s.write output_path merged1)
    | (false, s) =>
      if env.pilReOk then
        let cleaned := Data.reencoded is_webp (Data.raw ov)
        let s := s.write env.ntfPath cleaned
        let s := { s with files := s.files.filter (fun e => e.1 ≠ env.ntfPath),
                          events := s.events ++ [Ev.unlink env.ntfPath] }
        let merged2 := Data.mergedVideo (Data.raw main_data) cleaned
        match try_ffmpeg_merge env.ffmpeg2Ok main_path overlay_path merged_path
            cleaned merged2 s with
        | (true, s) => (Except.ok (), s.write output_path merged2)
        | (false, s) => merge_video_fallback cfg main_data s
      else
        merge_video_fallback cfg main_data s
  | none => (Except.ok (), s.write output_path (Data.raw main_data))

/-! ### Archive decomposer (src/zip_processor.py) -/

/-- zipfile read of a member by name from the archive's entry list. -/
def zipRead (entries : List (String × Bytes)) (name : String) : Bytes :=
  ((entries.find? (fun e => e.1 = name)).map (fun e => e.2)).getD []

/-- Statistics bump shared by the `both`-mode branch after a successful
merge (src/zip_processor.py lines 54-55 / 58-59). -/
def bumpWithOverlay (mt : MediaType) (st : Stats) : Stats :=
  match mt with
  | MediaType.image =>
    { st with total_images := st.total_images + 1,
              images_with_overlay := st.images_with_overlay + 1 }
  | MediaType.video =>
    { st with total_videos := st.total_videos + 1,
              videos_with_overlay := st.videos_with_overlay + 1 }

/-- Dispatch of the compositor by media kind (src/zip_processor.py lines
52-59 and 81-88), followed by the with-overlay counters on success. -/
def mergeByType (cfg : Config) (env : ItemEnv) (path : String)
    (main_data : Bytes) (overlay_data : Option Bytes) (s : ISt) :
    Except PyErr Unit × ISt :=
  match s.mem.media_type with
  | MediaType.image =>
    match merge_image_overlay cfg env path main_data overlay_data s with
    | (Except.error e, s) => (Except.error e, s)
    | (Except.ok _, s) => (Except.ok (), s.bump (bumpWithOverlay MediaType.image))
  | MediaType.video =>
    match merge_video_overlay cfg env path main_data overlay_data s with
    | (Except.error e, s) => (Except.error e, s)
    | (Except.ok _, s) => (Except.ok (), s.bump (bumpWithOverlay MediaType.video))

/-- src/zip_processor.py lines 40-76, the `both`-mode branch: record both
destination paths on the memory, merge the with-overlay rendition at
overlay_memory_path, write the untouched primary bytes to
no_overlay_memory_path, count the extra copy; the copy-overlays branch
(lines 72-76) reads config.overlays_dir, an attribute never assigned by
src/config.py or src/args.py, so it raises AttributeError when
config.save_overlays_only is set. -/
def zip_both_branch (cfg : Config) (env : ItemEnv)
    (overlay_memory_path no_overlay_memory_path : String)
    (main_data : Bytes) (overlay_data : Option Bytes) (s : ISt) :
    Except PyErr Unit × ISt :=
  let s := s.setMem { s.mem with
    path_with_overlay := some overlay_memory_path,
    path_without_overlay := some no_overlay_memory_path }
  match mergeByType cfg env overlay_memory_path main_data overlay_data s with
  | (Except.error e, s) => (Except.error e, s)
  | (Except.ok _, s) =>
    let s := s.write no_overlay_memory_path (Data.raw main_data)
    let s := s.bump (fun st =>
      match s.mem.media_type with
      | MediaType.image =>
        { st with extra_images_without_overlay :=
            st.extra_images_without_overlay + 1 }
      | MediaType.video =>
        { st with extra_videos_without_overlay :=
            st.extra_videos_without_overlay + 1 })
    if cfg.save_overlays_only ∧ overlay_data.isSome then
      (Except.error PyErr.attributeError, s)
    else (Except.ok (), s)

/-- src/zip_processor.py lines 77-90, the `with`-mode branch: record the
single with-overlay destination and merge there. -/
def zip_with_branch (cfg : Config) (env : ItemEnv) (memory_path : String)
    (main_data : Bytes) (overlay_data : Option Bytes) (s : ISt) :
    Except PyErr Unit × ISt :=
  let s := s.setMem { s.mem with path_with_overlay := some memory_path }
  mergeByType cfg env memory_path main_data overlay_data s

/-- src/zip_processor.py lines 24-90, the try-block of
process_zip_with_overlays: open the archive, locate the "-main" member
(ValueError when absent) and the optional "-overlay" member, run OCR when
configured, then dispatch by overlay mode: `both` computes both
destination paths per the naming mode and runs the both-branch, otherwise
a single with-overlay destination under output_path is merged. -/
def process_zip_body (cfg : Config) (env : ItemEnv) (output_path : String)
    (s : ISt) : Except PyErr Unit × ISt :=
  if ¬ env.zipOpenOk then (Except.error PyErr.zipError, s)
  else
    let files := env.zipEntries.map (fun e => e.1)
    match files.find? (fun f => strContains f "-main") with
    | none => (Except.error PyErr.valueError, s)
    | some main_file =>
      let overlay_file := files.find? (fun f => strContains f "-overlay")
      let main_data := zipRead env.zipEntries main_file
      let overlay_data := overlay_file.map (zipRead env.zipEntries)
      let s :=
        if overlay_data.isSome ∧ cfg.ocr_metadata then
          s.setMem { s.mem with extracted_ocr_text := env.ocrText }
        else s
      if cfg.overlay_mode = OverlayMode.omBoth then
        let withName := s.mem.get_filename cfg true s.mem.occurrence
        let noName := s.mem.get_filename cfg false s.mem.occurrence
        let overlay_memory_path :=
          if cfg.overlay_naming = OverlayNaming.singleFolder then
            pjoin cfg.output_dir withName
          else pjoin (pjoin cfg.output_dir WITH_OVERLAYS_DIR) withName
        let no_overlay_memory_path :=
          if cfg.overlay_naming = OverlayNaming.singleFolder then
            pjoin cfg.output_dir noName
          else pjoin (pjoin cfg.output_dir WITHOUT_OVERLAYS_DIR) noName
        zip_both_branch cfg env overlay_memory_path no_overlay_memory_path
          main_data overlay_data s
      else
        let memory_path :=
          pjoin output_path (s.mem.get_filename cfg true s.mem.occurrence)
        zip_with_branch cfg env memory_path main_data overlay_data s

/-- The canonical base name of an item: its computed filename up to the
last dot (src/zip_processor.py line 97 and src/download.py line 52). -/
def canonBase (cfg : Config) (m : Memory) : String :=
  rsplitDot1 (m.get_filename cfg false m.occurrence)

/-- src/zip_processor.py `process_zip_with_overlays`: run the try-block;
any exception is caught at this boundary: the overlay-failed counter is
incremented, the archive members are re-extracted into
output_dir/error_zips/<canonical-base> (renaming a ".png"-named overlay
member with a RIFF/WEBP signature to ".webp"); if even that extraction
fails, the raw archive bytes are written to
output_dir/error_zips/<canonical-base>.zip. Never raises. -/
def process_zip_with_overlays (cfg : Config) (env : ItemEnv)
    (output_path : String) (zip_content : Bytes) (s : ISt) : ISt :=
  match process_zip_body cfg env output_path s with
  | (Except.ok _, s) => s
  | (Except.error _, s) =>
    let s := s.bump (fun st => { st with overlay_failed := st.overlay_failed + 1 })
    let base := canonBase cfg s.mem
    let error_dir := pjoin (pjoin cfg.output_dir "error_zips") base
    let s := s.mkdirEv error_dir
    if env.zipOpenOk && env.zipReadOk then
      env.zipEntries.foldl (fun s e =>
        let filename_to_save :=
          if strContains e.1 "-overlay" ∧ strEndsWith e.1 ".png" ∧ isWebpSig e.2 then
            strReplace e.1 ".png" ".webp"
          else e.1
        s.write (pjoin error_dir filename_to_save) (Data.raw e.2)) s
    else
      s.write (pjoin (pjoin cfg.output_dir "error_zips") (base ++ ".zip"))
        (Data.raw zip_content)

/-! ### Metadata application (src/metadata.py lines 221-252) and its
call site (src/download.py line 131) -/

/-- src/metadata.py `_apply_metadata_to_path`: no-op when the file does
not exist; otherwise embed metadata (internal failures are caught inside
add_exif_data / set_video_metadata) and set the filesystem timestamps.
Recorded as a metaApply event. -/
def apply_metadata_to_path (p : String) (s : ISt) : ISt :=
  if s.fileExists p then s.ev (Ev.metaApply p) else s

/-- src/metadata.py `apply_metadata_and_timestamps` (lines 241-252): apply
to path_with_overlay when set, then to path_without_overlay when set. -/
def apply_metadata_and_timestamps (s : ISt) : ISt :=
  let s :=
    match s.mem.path_with_overlay with
    | some p => apply_metadata_to_path p s
    | none => s
  match s.mem.path_without_overlay with
  | some p => apply_metadata_to_path p s
  | none => s

/-- Arity of apply_metadata_and_timestamps as defined at
src/metadata.py line 241: two required positional parameters
(memory, add_exif). -/
def apply_metadata_arity : Nat := 2

/-- Number of positional arguments supplied at the call site
src/download.py line 131: apply_metadata_and_timestamps(memory). -/
def apply_metadata_call_argc : Nat := 1

/-- The call at src/download.py line 131 under Python calling convention:
a TypeError is raised before the callee body runs when fewer arguments
are supplied than the callee requires. -/
def call_apply_metadata_and_timestamps (s : ISt) : Except PyErr Unit × ISt :=
  if apply_metadata_call_argc < apply_metadata_arity then
    (Except.error PyErr.typeError, s)
  else (Except.ok (), apply_metadata_and_timestamps s)

/-! ### Item download task (src/download.py lines 89-138) -/

/-- src/download.py lines 94-100, URL resolution: the direct CDN
reference under `with`/`both` (no network call), otherwise the
indirection POST which yields the CDN URL or fails the item. -/
def resolve_url (cfg : Config) (env : ItemEnv) (s : ISt) :
    Except PyErr String × ISt :=
  if cfg.overlay_mode = OverlayMode.omWith ∨
      cfg.overlay_mode = OverlayMode.omBoth then
    (Except.ok s.mem.media_download_url, s)
  else
    let s := s.ev (Ev.httpPost s.mem.download_link)
    if env.cdnOk then (Except.ok env.cdnUrl, s)
    else (Except.error PyErr.httpError, s)

/-- src/download.py lines 110-124, the direct-write branch: the body is
written to the destination (the without-overlays subfolder under
both+separate-folders, otherwise the output root), path_without_overlay
is recorded, and the matching media-kind / without-overlay counters are
bumped. -/
def direct_write (cfg : Config) (content : Bytes) (s : ISt) : ISt :=
  let fname := s.mem.get_filename cfg false s.mem.occurrence
  let output_path :=
    if cfg.overlay_mode = OverlayMode.omBoth ∧
        cfg.overlay_naming = OverlayNaming.separateFolders then
      pjoin (pjoin cfg.output_dir WITHOUT_OVERLAYS_DIR) fname
    else pjoin cfg.output_dir fname
  let s := s.write output_path (Data.raw content)
  let s := s.setMem { s.mem with path_without_overlay := some output_path }
  s.bump (fun st =>
    match s.mem.media_type with
    | MediaType.image =>
      { st with total_images := st.total_images + 1,
                images_without_overlay := st.images_without_overlay + 1 }
    | MediaType.video =>
      { st with total_videos := st.total_videos + 1,
                videos_without_overlay := st.videos_without_overlay + 1 })

/-- src/download.py lines 92-134, the try-block of download_memory:
resolve the URL, GET it, then either write the body directly to the
destination (overlay mode `none`, or a non-zip content type) or delegate
to the archive decomposer; finally invoke the metadata applier and
return success with the byte count. -/
def download_memory_body (cfg : Config) (env : ItemEnv) (s : ISt) :
    Except PyErr (Bool × Nat) × ISt :=
  match resolve_url cfg env s with
  | (Except.error e, s) => (Except.error e, s)
  | (Except.ok url, s) =>
    let s := s.ev (Ev.httpGet url)
    if ¬ env.fetchOk then (Except.error PyErr.httpError, s)
    else
      let content := env.body
      let s :=
        if cfg.overlay_mode = OverlayMode.omNone ∨ ¬ env.contentTypeZip then
          direct_write cfg content s
        else process_zip_with_overlays cfg env cfg.output_dir content s
      match call_apply_metadata_and_timestamps s with
      | (Except.error e, s) => (Except.error e, s)
      | (Except.ok _, s) => (Except.ok (true, content.length), s)

/-- src/download.py `download_memory`: the try-block with its exception
handler — any exception is caught, logged, and the item reports failure
with zero bytes. -/
def download_memory (cfg : Config) (env : ItemEnv) (s : ISt) :
    (Bool × Nat) × ISt :=
  match download_memory_body cfg env s with
  | (Except.ok r, s) => (r, s)
  | (Except.error _, s) => ((false, 0), s)

/-- src/download.py `_process_and_update`: run download_memory and fold
the outcome into the statistics (downloaded or failed, plus bytes). -/
def process_and_update (cfg : Config) (env : ItemEnv) (s : ISt) : ISt :=
  let r := download_memory cfg env s
  let s := r.2
  let s :=
    if r.1.1 then s.bump (fun st => { st with downloaded := st.downloaded + 1 })
    else s.bump (fun st => { st with failed := st.failed + 1 })
  s.bump (fun st => { st with mbBytes := st.mbBytes + r.1.2 })

/-! ### Batch level (src/download.py lines 18-65 and 141-178) -/

/-- Batch-level state: the filesystem, the event trace and the shared
run statistics (one item's Memory is swapped in while it is processed). -/
structure GSt where
  files : List (String × Data)
  events : List Ev
  stats : Stats
deriving DecidableEq, Repr

/-- Append an event at batch level. -/
def GSt.ev (g : GSt) (e : Ev) : GSt :=
  { g with events := g.events ++ [e] }

/-- Run one item's task against the batch state. -/
def runItem (cfg : Config) (g : GSt) (it : Memory × ItemEnv) : GSt :=
  let s : ISt := ⟨it.1, g.files, g.events, g.stats⟩
  let s := process_and_update cfg it.2 s
  ⟨s.files, s.events, s.stats⟩

/-- src/download.py `_build_existing_files_set` (lines 18-30): one
recursive walk of the output tree; for every file found, record its stem
with the "_overlayed" marker removed. -/
def build_existing_files_set (g : GSt) (output_dir : String) : List String :=
  ((g.files.map (fun e => e.1)).filter
      (fun p => underDir output_dir p)).map
    (fun p => strReplace (stem p) "_overlayed" "")

/-- The base name an item is checked under (src/download.py lines 50-52):
its computed filename up to the last dot, with "_overlayed" removed. -/
def skipBase (cfg : Config) (m : Memory) : String :=
  strReplace (rsplitDot1 (m.get_filename cfg false m.occurrence)) "_overlayed" ""

/-- One step of the existence filter (src/download.py lines 49-57): a
memory whose base name is in the existing set bumps the skipped counter;
any other memory is appended to the download list. -/
def filter_fold_step (cfg : Config) (existing : List String)
    (acc : List (Memory × ItemEnv) × GSt) (it : Memory × ItemEnv) :
    List (Memory × ItemEnv) × GSt :=
  if existing.contains (skipBase cfg it.1) then
    (acc.1, { acc.2 with
      stats := { acc.2.stats with skipped := acc.2.stats.skipped + 1 } })
  else (acc.1 ++ [it], acc.2)

/-- src/download.py `_filter_memories_to_download` (lines 33-65): when
skip_existing is off, everything is downloaded; otherwise the existing
set is built once and each item is skipped (counter bumped) exactly when
its base name is a member. -/
def filter_memories_to_download (cfg : Config) (g : GSt)
    (items : List (Memory × ItemEnv)) : List (Memory × ItemEnv) × GSt :=
  if ¬ cfg.skip_existing then (items, g)
  else
    let existing := build_existing_files_set g cfg.output_dir
    items.foldl (filter_fold_step cfg existing) ([], g)

/-- src/download.py `download_all` (lines 141-178): create the output
directory (and the overlay subfolders under both+separate-folders),
filter the item list, return early when nothing remains, otherwise run
every remaining item's task. -/
def download_all (cfg : Config) (items : List (Memory × ItemEnv))
    (g : GSt) : GSt :=
  let g := g.ev (Ev.mkdir cfg.output_dir)
  let g :=
    if cfg.overlay_mode = OverlayMode.omBoth ∧
        cfg.overlay_naming = OverlayNaming.separateFolders then
      (g.ev (Ev.mkdir (pjoin cfg.output_dir WITH_OVERLAYS_DIR))).ev
        (Ev.mkdir (pjoin cfg.output_dir WITHOUT_OVERLAYS_DIR))
    else g
  let fr := filter_memories_to_download cfg g items
  if fr.1.isEmpty then fr.2
  else fr.1.foldl (runItem cfg) fr.2

/-! ### Concurrency model of the batch scheduler (src/download.py lines
89-92, 141-173)

asyncio drives the per-item coroutines cooperatively: a coroutine
progresses between await points, and the counting semaphore created at
line 152 with config.max_concurrent permits admits a task (line 92,
`async with semaphore`) only when a permit is available.  The body of
download_memory consists of the stages resolve / fetch / process /
metadata; the `async with` block guarantees the permit is returned when
the block is exited, whether the body completed or raised.  The
scheduler below is the transition system of this structure: one
transition fires at a time (single event loop), a task is admitted only
when the permit counter is positive, a running task either performs its
next stage, or raises (dropping the remaining stages), and a task whose
body is exhausted releases its permit. -/

/-- The stages of download_memory's body, in program order
(src/download.py lines 94-131). -/
inductive Stage
  | resolve
  | fetch
  | processStage
  | metadata
deriving DecidableEq, Repr

/-- The stage list of one item download task. -/
def download_stages : List Stage :=
  [Stage.resolve, Stage.fetch, Stage.processStage, Stage.metadata]

/-- Phase of one task: waiting for admission, running with the given
stages still to perform, or finished (permit returned). -/
inductive TaskPhase
  | waiting
  | running (rest : List Stage)
  | finished
deriving DecidableEq, Repr

/-- Scheduler state: the phase of every task plus the semaphore's
available permit count. -/
structure Sched where
  tasks : List TaskPhase
  avail : Nat
deriving DecidableEq, Repr

/-- Number of tasks currently inside their fetch/compose/write stage
(i.e. holding a permit). -/
def runningCount (ts : List TaskPhase) : Nat :=
  ts.countP (fun t => match t with | TaskPhase.running _ => true | _ => false)

/-- initial scheduler state: download_all creates the semaphore with
config.max_concurrent permits and one waiting task per filtered item. -/
def schedInit (cfg : Config) (n : Nat) : Sched :=
  ⟨List.replicate n TaskPhase.waiting, cfg.max_concurrent⟩

/-- One scheduler transition: admission (consumes a permit, possible only
when one is available), one stage of work, an exception (the remaining
stages are skipped; the `async with` release is still ahead), or the
release performed on exiting the `async with` block. -/
inductive SchedStep : Sched → Sched → Prop
  | acquire (l₁ l₂ : List TaskPhase) (a : Nat) :
      SchedStep ⟨l₁ ++ TaskPhase.waiting :: l₂, a + 1⟩
        ⟨l₁ ++ TaskPhase.running download_stages :: l₂, a⟩
  | work (l₁ l₂ : List TaskPhase) (a : Nat) (st : Stage) (rest : List Stage) :
      SchedStep ⟨l₁ ++ TaskPhase.running (st :: rest) :: l₂, a⟩
        ⟨l₁ ++ TaskPhase.running rest :: l₂, a⟩
  | raised (l₁ l₂ : List TaskPhase) (a : Nat) (st : Stage) (rest : List Stage) :
      SchedStep ⟨l₁ ++ TaskPhase.running (st :: rest) :: l₂, a⟩
        ⟨l₁ ++ TaskPhase.running [] :: l₂, a⟩
  | release (l₁ l₂ : List TaskPhase) (a : Nat) :
      SchedStep ⟨l₁ ++ TaskPhase.running [] :: l₂, a⟩
        ⟨l₁ ++ TaskPhase.finished :: l₂, a + 1⟩

/-- Reachability under scheduler transitions. -/
def SchedReach : Sched → Sched → Prop :=
  Relation.ReflTransGen SchedStep

/-- The permit-accounting invariant: permits held by running tasks plus
available permits equal the configured bound. -/
def permitInv (N : Nat) (σ : Sched) : Prop :=
  runningCount σ.tasks + σ.avail = N

/-! ### Spec-side definitions used for comparison -/

/-- Modelled from the spec filename contract (section 6): the spec
states the filename is `[prefix_]<capture-local-date>_<capture-local-time>
[_v<occurrence>][_overlayed].<ext>` with date/time formatted
YYYY-MM-DD_HH-MM-SS in the capture-local timezone and the occurrence
suffix present only when the item's timestamp is duplicated among items.
`duplicated` says whether the timestamp is duplicated. -/
def spec_filename (cfg : Config) (m : Memory) (has_overlay duplicated : Bool)
    (occurrence : Nat) : String :=
  let ext := if m.media_type = MediaType.image then ".jpg" else ".mp4"
  let base := formatTSAt m.date.epochSec m.date.tzOffsetMin
  let version_suffix := if duplicated then "_v" ++ toString occurrence else ""
  let overlay_suffix := if has_overlay then "_overlayed" else ""
  let pfx := if cfg.filename_pfx ≠ "" then cfg.filename_pfx ++ "_" else ""
  pfx ++ base ++ version_suffix ++ overlay_suffix ++ ext

/-- The filename formula the code actually implements: date/time in UTC,
and the `_v<occurrence>` suffix always present (the occurrence ordinal is
1-based, so `occurrence >= 1` always holds). -/
def filename_formula (cfg : Config) (m : Memory) (has_overlay : Bool)
    (occurrence : Nat) : String :=
  let ext := if m.media_type = MediaType.image then ".jpg" else ".mp4"
  let base := formatTS m.date.epochSec
  let overlay_suffix := if has_overlay then "_overlayed" else ""
  let pfx := if cfg.filename_pfx ≠ "" then cfg.filename_pfx ++ "_" else ""
  pfx ++ base ++ "_v" ++ toString occurrence ++ overlay_suffix ++ ext

/-- The claim of atomic-rename-only promotion, as stated: no write event
ever targets the primary output tree (files would appear there only via
rename). -/
def outputsOnlyViaRename (outDir : String) (evs : List Ev) : Prop :=
  ∀ p d, Ev.write p d ∈ evs → underDir outDir p = false

/-! ### Concrete fixtures -/

/-- overlay mode `with`, single folder, output root "out". -/
def cfgW : Config :=
  ⟨OverlayMode.omWith, OverlayNaming.singleFolder, "out", "", true, false,
    false, 2, true⟩

/-- overlay mode `both`, separate folders. -/
def cfgB : Config :=
  ⟨OverlayMode.omBoth, OverlayNaming.separateFolders, "out", "", true, false,
    false, 2, true⟩

/-- overlay mode `none`. -/
def cfgN : Config :=
  ⟨OverlayMode.omNone, OverlayNaming.separateFolders, "out", "", true, false,
    false, 2, true⟩

/-- An image memory captured 2021-06-15 12:00:00 UTC at utc-offset -240
minutes (its capture-local time is 08:00:00), first occurrence. -/
def memI : Memory :=
  ⟨⟨1623758400, -240⟩, MediaType.image, "https://cdn/x", "https://sc/dl",
    1, none, none, none⟩

/-- The same capture as a video memory. -/
def memV : Memory :=
  ⟨⟨1623758400, -240⟩, MediaType.video, "https://cdn/x", "https://sc/dl",
    1, none, none, none⟩

/-- A second image memory captured one hour later. -/
def memJ : Memory :=
  ⟨⟨1623762000, -240⟩, MediaType.image, "https://cdn/x2", "https://sc/dl2",
    1, none, none, none⟩

/-- Archive entries: a main member and a (non-WebP) overlay member. -/
def entsI : List (String × Bytes) :=
  [("x-main.jpg", [1, 2, 3]), ("x-overlay.png", [9, 9])]

/-- Archive entries whose overlay member carries the RIFF/WEBP container
signature. -/
def entsW : List (String × Bytes) :=
  [("x-main.mp4", [1, 2, 3]),
   ("x-overlay.png",
     [0x52, 0x49, 0x46, 0x46, 0, 0, 0, 0, 0x57, 0x45, 0x42, 0x50, 5])]

/-- Oracle where every external collaborator succeeds. -/
def envBase : ItemEnv :=
  ⟨true, "https://aws/y", true, true, [7, 7, 7, 7], true, entsI, true, true,
    true, true, true, true, true, none, "TMP", "SYSTMP/ntf"⟩

/-- Overlay decoding fails in PIL. -/
def envImgFail : ItemEnv := { envBase with imgOverlayOk := false }

/-- Both ffmpeg attempts exit non-zero (PIL repair succeeds). -/
def envVidFail2 : ItemEnv :=
  { envBase with ffmpeg1Ok := false, ffmpeg2Ok := false }

/-- A WebP overlay, all merges succeed. -/
def envWebp : ItemEnv := { envBase with zipEntries := entsW }

/-- A non-archive response body. -/
def envDirect : ItemEnv := { envBase with contentTypeZip := false }

/-- The archive fails to open, both at decompose time and at error
re-extraction time. -/
def envZipBad : ItemEnv :=
  { envBase with zipOpenOk := false, zipReadOk := false }

/-- The indirection exchange fails. -/
def envResolveFail : ItemEnv := { envBase with cdnOk := false }

/-- The GET fails. -/
def envFetchFail : ItemEnv := { envBase with fetchOk := false }

/-- Item state at the start of one item's processing. -/
def istInit (m : Memory) : ISt := ⟨m, [], [], Stats.init⟩

/-- A video item mid-decomposition under `both` mode: both destination
paths already recorded on the memory. -/
def istVidBoth : ISt :=
  ⟨{ memV with
      path_with_overlay := some "out/with_overlays/2021-06-15_12-00-00_v1_overlayed.mp4",
      path_without_overlay := some "out/without_overlays/2021-06-15_12-00-00_v1.mp4" },
    [], [], Stats.init⟩

/-- Batch state pre-seeded with memI's canonical output file. -/
def gSeeded : GSt :=
  ⟨[("out/2021-06-15_12-00-00_v1.jpg", Data.raw [0])], [], Stats.init⟩

/-- Metadata-application events. -/
def isMetaApplyEv : Ev → Bool
  | Ev.metaApply _ => true
  | _ => false

/-- Empty batch state. -/
def gEmpty : GSt := ⟨[], [], Stats.init⟩

/-- Projection of the statistics fields that record item outcomes. -/
def coreStats (st : Stats) : Nat × Nat × Nat × Nat :=
  (st.downloaded, st.skipped, st.failed, st.overlay_failed)

/-! ### Error taxonomy (spec section 7, categories 1-4) -/

/-- Category 1, resolution error: the indirection exchange (performed
only under overlay mode none) fails. -/
def category1 (cfg : Config) (env : ItemEnv) : Prop :=
  cfg.overlay_mode = OverlayMode.omNone ∧ env.cdnOk = false

/-- Category 2, fetch error: resolution succeeded but the GET fails. -/
def category2 (cfg : Config) (env : ItemEnv) : Prop :=
  (cfg.overlay_mode = OverlayMode.omNone → env.cdnOk = true) ∧
  env.fetchOk = false

/-- The item reaches the archive decomposer: overlays enabled, fetch
succeeded, archive content type. -/
def reachesZip (cfg : Config) (env : ItemEnv) : Prop :=
  cfg.overlay_mode ≠ OverlayMode.omNone ∧ env.fetchOk = true ∧
  env.contentTypeZip = true

/-- Category 3, decomposition error: the archive fails to open, or no
"-main" member exists. -/
def category3 (cfg : Config) (env : ItemEnv) : Prop :=
  reachesZip cfg env ∧
  (env.zipOpenOk = false ∨
    (env.zipEntries.map (fun e => e.1)).find?
      (fun f => strContains f "-main") = none)

/-- Composite failure conditions per media kind: image overlay
decode/resample/save failure; video ffmpeg failure uncured by the single
repair-and-retry. -/
def mergeFails (env : ItemEnv) : MediaType → Prop
  | MediaType.image =>
    env.imgMainOk = false ∨ env.imgOverlayOk = false ∨ env.imgSaveOk = false
  | MediaType.video =>
    env.ffmpeg1Ok = false ∧ (env.pilReOk = false ∨ env.ffmpeg2Ok = false)

/-- Category 4, composite error: the archive decomposes (main and
overlay members present) but overlay compositing fails. -/
def category4 (cfg : Config) (env : ItemEnv) (m : Memory) : Prop :=
  reachesZip cfg env ∧ env.zipOpenOk = true ∧
  (∃ mf, (env.zipEntries.map (fun e => e.1)).find?
      (fun f => strContains f "-main") = some mf) ∧
  (∃ ovf, (env.zipEntries.map (fun e => e.1)).find?
      (fun f => strContains f "-overlay") = some ovf) ∧
  mergeFails env m.media_type

/-! ### Event-trace predicates -/

/-- Network request events (the fetch stage). -/
def isFetchEv : Ev → Bool
  | Ev.httpGet _ => true
  | Ev.httpPost _ => true
  | _ => false

/-- Rename events. -/
def isRenameEv : Ev → Bool
  | Ev.rename _ _ => true
  | _ => false

/-- External compositing process invocations. -/
def isFfmpegEv : Ev → Bool
  | Ev.ffmpegRun _ _ _ => true
  | _ => false

/-- Writes of PIL re-encoded overlay data (the repair pass). -/
def isReencWrite : Ev → Bool
  | Ev.write _ (Data.reencoded _ _) => true
  | _ => false

/-! ### General lemmas about the embedded pipeline -/

/-- The call at src/download.py line 131 always raises TypeError: one
positional argument is supplied to a function requiring two. -/
theorem call_meta_err (s : ISt) :
    call_apply_metadata_and_timestamps s = (Except.error PyErr.typeError, s) := rfl

theorem write_stats (s : ISt) (p : String) (d : Data) :
    (s.write p d).stats = s.stats := rfl

theorem ev_stats (s : ISt) (e : Ev) : (s.ev e).stats = s.stats := rfl

theorem setMem_stats (s : ISt) (m : Memory) : (s.setMem m).stats = s.stats := rfl

theorem unlink_stats (s : ISt) (p : String) :
    (s.unlinkMissingOk p).stats = s.stats := by
  unfold ISt.unlinkMissingOk; split <;> rfl

theorem rename_stats (s : ISt) (a b : String) :
    (s.renameFile a b).stats = s.stats := by
  unfold ISt.renameFile; split <;> rfl

/-- The failure-repair procedure touches paths and files only, never the
statistics. -/
theorem fix_paths_stats (mode : OverlayMode) (s : ISt) :
    (fix_paths_on_merge_failure mode s).stats = s.stats := by
  unfold fix_paths_on_merge_failure
  split
  · split <;> simp [unlink_stats, setMem_stats]
  · split
    · split
      · split
        · simp [rename_stats, setMem_stats]
        · rfl
      · rfl
    · rfl

/-- The image compositor never touches the statistics. -/
theorem merge_image_stats (cfg : Config) (env : ItemEnv) (p : String)
    (m : Bytes) (o : Option Bytes) (s : ISt) :
    ((merge_image_overlay cfg env p m o s).2).stats = s.stats := by
  unfold merge_image_overlay
  split
  · rfl
  · split
    · split
      · split <;> rfl
      · cases h2 : (fix_paths_on_merge_failure cfg.overlay_mode s).mem.path_without_overlay <;>
          simp [h2, ISt.write, fix_paths_stats]
    · split <;> rfl

theorem try_ffmpeg_stats (ok : Bool) (a b c : String) (d e : Data) (s : ISt) :
    ((try_ffmpeg_merge ok a b c d e s).2).stats = s.stats := by
  unfold try_ffmpeg_merge; split <;> rfl

theorem merge_video_fallback_stats (cfg : Config) (m : Bytes) (s : ISt) :
    ((merge_video_fallback cfg m s).2).stats = s.stats := by
  unfold merge_video_fallback
  cases h2 : (fix_paths_on_merge_failure cfg.overlay_mode s).mem.path_without_overlay <;>
    simp [h2, ISt.write, fix_paths_stats]

/-- The video fallback handler always re-raises. -/
theorem merge_video_fallback_err (cfg : Config) (m : Bytes) (s : ISt) :
    ∃ e s₁, merge_video_fallback cfg m s = (Except.error e, s₁) := by
  unfold merge_video_fallback
  cases h2 : (fix_paths_on_merge_failure cfg.overlay_mode s).mem.path_without_overlay
  · exact ⟨PyErr.attributeError, fix_paths_on_merge_failure cfg.overlay_mode s,
      by simp [h2]⟩
  case some q =>
    exact ⟨PyErr.runtimeError,
      (fix_paths_on_merge_failure cfg.overlay_mode s).write q (Data.raw m),
      by simp [h2]⟩

/-- The video compositor never touches the statistics. -/
theorem merge_video_stats (cfg : Config) (env : ItemEnv) (p : String)
    (m : Bytes) (o : Option Bytes) (s : ISt) :
    ((merge_video_overlay cfg env p m o s).2).stats = s.stats := by
  unfold merge_video_overlay try_ffmpeg_merge
  repeat' split
  all_goals
    simp_all [ISt.write, ISt.ev, merge_video_fallback_stats, fix_paths_stats]

theorem bumpWithOverlay_core (mt : MediaType) (st : Stats) :
    coreStats (bumpWithOverlay mt st) = coreStats st := by
  cases mt <;> rfl

/-- The media-kind dispatch preserves the outcome counters on every path
(the with-overlay counters it bumps are not outcome counters). -/
theorem mergeByType_core (cfg : Config) (env : ItemEnv) (p : String)
    (m : Bytes) (o : Option Bytes) (s : ISt) :
    coreStats ((mergeByType cfg env p m o s).2).stats = coreStats s.stats := by
  unfold mergeByType
  split
  · split
    case h_1 _ s₁ heq =>
      have h := merge_image_stats cfg env p m o s
      rw [heq] at h
      simp only at h
      rw [h]
    case h_2 _ s₁ heq =>
      have h := merge_image_stats cfg env p m o s
      rw [heq] at h
      simp only at h
      simp [ISt.bump, h, bumpWithOverlay_core]
  · split
    case h_1 _ s₁ heq =>
      have h := merge_video_stats cfg env p m o s
      rw [heq] at h
      simp only at h
      rw [h]
    case h_2 _ s₁ heq =>
      have h := merge_video_stats cfg env p m o s
      rw [heq] at h
      simp only at h
      simp [ISt.bump, h, bumpWithOverlay_core]

/-- The `both`-mode branch preserves the outcome counters. -/
theorem zip_both_branch_core (cfg : Config) (env : ItemEnv)
    (p₁ p₂ : String) (md : Bytes) (od : Option Bytes) (s : ISt) :
    coreStats ((zip_both_branch cfg env p₁ p₂ md od s).2).stats =
      coreStats s.stats := by
  unfold zip_both_branch
  have h := mergeByType_core cfg env p₁ md od
    (s.setMem { s.mem with path_with_overlay := some p₁,
                           path_without_overlay := some p₂ })
  rcases heq : mergeByType cfg env p₁ md od
      (s.setMem { s.mem with path_with_overlay := some p₁,
                             path_without_overlay := some p₂ }) with ⟨r, s₁⟩
  rw [heq] at h
  simp only at h
  cases r
  · simp only [heq]
    exact h
  · simp only [heq]
    split <;> cases hmt : s₁.mem.media_type <;>
      simp_all [ISt.setMem, ISt.write, ISt.bump, coreStats]

/-- The `with`-mode branch preserves the outcome counters. -/
theorem zip_with_branch_core (cfg : Config) (env : ItemEnv)
    (p : String) (md : Bytes) (od : Option Bytes) (s : ISt) :
    coreStats ((zip_with_branch cfg env p md od s).2).stats =
      coreStats s.stats := by
  unfold zip_with_branch
  have h := mergeByType_core cfg env p md od
    (s.setMem { s.mem with path_with_overlay := some p })
  rw [h]; rfl

/-- The decomposer try-block preserves the outcome counters on every
path. -/
theorem process_zip_body_core (cfg : Config) (env : ItemEnv) (op : String)
    (s : ISt) :
    coreStats ((process_zip_body cfg env op s).2).stats = coreStats s.stats := by
  unfold process_zip_body
  split
  · rfl
  · rcases hf : List.find? (fun f => strContains f "-main")
        (env.zipEntries.map (fun e => e.1)) with _ | mf
    · simp only [hf]
    · simp only [hf]
      repeat' split
      all_goals
        first
          | (rw [zip_both_branch_core]; try rfl)
          | (rw [zip_with_branch_core]; try rfl)
          | rfl

/-- URL resolution yields a url or an http error; either way the
statistics and the memory are untouched. -/
theorem resolve_url_cases (cfg : Config) (env : ItemEnv) (s : ISt) :
    (∃ u s', resolve_url cfg env s = (Except.ok u, s') ∧
      s'.stats = s.stats ∧ s'.mem = s.mem) ∨
    (∃ s', resolve_url cfg env s = (Except.error PyErr.httpError, s') ∧
      s'.stats = s.stats ∧ s'.mem = s.mem) := by
  unfold resolve_url
  split
  · exact Or.inl ⟨_, _, rfl, rfl, rfl⟩
  · split
    · exact Or.inl ⟨_, _, rfl, rfl, rfl⟩
    · exact Or.inr ⟨_, rfl, rfl, rfl⟩

/-- The error-path re-extraction writes files only; statistics are
untouched. -/
theorem extract_fold_stats (error_dir : String)
    (l : List (String × Bytes)) (s : ISt) :
    (l.foldl (fun s e =>
      let filename_to_save :=
        if strContains e.1 "-overlay" ∧ strEndsWith e.1 ".png" ∧ isWebpSig e.2 then
          strReplace e.1 ".png" ".webp"
        else e.1
      s.write (pjoin error_dir filename_to_save) (Data.raw e.2)) s).stats
      = s.stats := by
  induction l generalizing s with
  | nil => rfl
  | cons a t ih =>
    simp only [List.foldl_cons, ih]
    rfl

/-- When the decomposer body succeeds, the boundary is transparent. -/
theorem process_zip_ok (cfg : Config) (env : ItemEnv) (op : String)
    (zc : Bytes) (s : ISt) (u : Unit) (s₁ : ISt)
    (h : process_zip_body cfg env op s = (Except.ok u, s₁)) :
    process_zip_with_overlays cfg env op zc s = s₁ := by
  unfold process_zip_with_overlays
  rw [h]

/-- When the decomposer body raises, the boundary increments
overlay_failed exactly once and changes no other outcome counter. -/
theorem process_zip_err (cfg : Config) (env : ItemEnv) (op : String)
    (zc : Bytes) (s : ISt) (e : PyErr) (s₁ : ISt)
    (h : process_zip_body cfg env op s = (Except.error e, s₁)) :
    coreStats (process_zip_with_overlays cfg env op zc s).stats =
      (s₁.stats.downloaded, s₁.stats.skipped, s₁.stats.failed,
        s₁.stats.overlay_failed + 1) := by
  unfold process_zip_with_overlays
  rw [h]
  dsimp only
  split
  · rw [extract_fold_stats]
    rfl
  · rfl

theorem direct_write_core (cfg : Config) (c : Bytes) (s : ISt) :
    coreStats (direct_write cfg c s).stats = coreStats s.stats := by
  unfold direct_write
  cases hmt : s.mem.media_type <;>
    simp [ISt.write, ISt.setMem, ISt.bump, hmt, coreStats]

/-- download_memory changes none of the downloaded / skipped / failed
counters (those belong to the caller); it may bump media counters and
overlay_failed. -/
theorem download_memory_core3 (cfg : Config) (env : ItemEnv) (s : ISt) :
    (download_memory cfg env s).2.stats.downloaded = s.stats.downloaded ∧
    (download_memory cfg env s).2.stats.skipped = s.stats.skipped ∧
    (download_memory cfg env s).2.stats.failed = s.stats.failed := by
  unfold download_memory download_memory_body
  rcases resolve_url_cases cfg env s with ⟨u, s', heq, hst, _⟩ | ⟨s', heq, hst, _⟩
  · rw [heq]
    by_cases hf : env.fetchOk
    · simp only [hf, not_true_eq_false, if_neg, ite_false, call_meta_err]
      by_cases hz : cfg.overlay_mode = OverlayMode.omNone ∨ ¬ env.contentTypeZip
      · have h := direct_write_core cfg env.body (s'.ev (Ev.httpGet u))
        simp only [hz, ite_true, if_pos]
        simp only [coreStats, Prod.ext_iff] at h
        simp [ISt.ev, hst] at h ⊢
        omega
      · simp only [hz, ite_false, if_neg]
        rcases hpb : process_zip_body cfg env cfg.output_dir
            (s'.ev (Ev.httpGet u)) with ⟨r, s₁⟩
        have hbc := process_zip_body_core cfg env cfg.output_dir
          (s'.ev (Ev.httpGet u))
        rw [hpb] at hbc
        simp only at hbc
        cases r with
        | ok v =>
          rw [process_zip_ok cfg env cfg.output_dir env.body _ v s₁ hpb]
          simp only [coreStats, Prod.ext_iff] at hbc
          simp [ISt.ev, hst] at hbc
          simp [hbc]
        | error e =>
          have hpe := process_zip_err cfg env cfg.output_dir env.body _ e s₁ hpb
          simp only [coreStats, Prod.ext_iff] at hpe hbc
          simp [ISt.ev, hst] at hbc
          simp [hpe.1, hpe.2.1, hpe.2.2.1, hbc]
    · simp [hf, ISt.ev, hst]
  · rw [heq]
    simp [hst]

/-- Every item reports failure: the metadata call site passes one
argument to a two-parameter function, so even fully successful fetches
and writes raise TypeError before download_memory can return success. -/
theorem download_memory_fails (cfg : Config) (env : ItemEnv) (s : ISt) :
    (download_memory cfg env s).1 = (false, 0) := by
  unfold download_memory download_memory_body
  rcases resolve_url_cases cfg env s with ⟨u, s', heq, _, _⟩ | ⟨s', heq, _, _⟩
  · rw [heq]
    by_cases hf : env.fetchOk <;> simp [hf, call_meta_err]
  · rw [heq]

/-- One item's completion bumps failed (never downloaded, by
download_memory_fails) by exactly one. -/
theorem process_and_update_outcome (cfg : Config) (env : ItemEnv) (s : ISt) :
    (process_and_update cfg env s).stats.downloaded = s.stats.downloaded ∧
    (process_and_update cfg env s).stats.failed = s.stats.failed + 1 := by
  unfold process_and_update
  have hf := download_memory_fails cfg env s
  obtain ⟨hd, _, hfl⟩ := download_memory_core3 cfg env s
  rcases hr : download_memory cfg env s with ⟨⟨succ, b⟩, s'⟩
  rw [hr] at hf hd hfl
  simp only [Prod.ext_iff] at hf
  simp only at hd hfl
  simp [hr, hf.1, ISt.bump, hd, hfl]

theorem runItem_outcome (cfg : Config) (g : GSt) (it : Memory × ItemEnv) :
    (runItem cfg g it).stats.downloaded = g.stats.downloaded ∧
    (runItem cfg g it).stats.failed = g.stats.failed + 1 := by
  unfold runItem
  exact process_and_update_outcome cfg it.2 ⟨it.1, g.files, g.events, g.stats⟩

/-- The batch fold processes every scheduled item: exactly one outcome
is recorded per item and no failure aborts the remainder. -/
theorem batch_outcome (cfg : Config) (items : List (Memory × ItemEnv))
    (g : GSt) :
    ((items.foldl (runItem cfg) g).stats.downloaded = g.stats.downloaded) ∧
    ((items.foldl (runItem cfg) g).stats.failed =
      g.stats.failed + items.length) := by
  induction items generalizing g with
  | nil => simp
  | cons a t ih =>
    simp only [List.foldl_cons, List.length_cons]
    obtain ⟨h1, h2⟩ := ih (runItem cfg g a)
    obtain ⟨r1, r2⟩ := runItem_outcome cfg g a
    constructor
    · rw [h1, r1]
    · rw [h2, r2]
      omega

/-! ### Error taxonomy theorems (spec section 7, categories 1-4) -/

/-- Image compositing raises whenever any of its decode/resample/save
steps fails and an overlay is present. -/
theorem merge_image_err (cfg : Config) (env : ItemEnv) (p : String)
    (md ov : Bytes) (s : ISt)
    (h : env.imgMainOk = false ∨ env.imgOverlayOk = false ∨
      env.imgSaveOk = false) :
    ∃ e s₁, merge_image_overlay cfg env p md (some ov) s =
      (Except.error e, s₁) := by
  unfold merge_image_overlay
  by_cases h1 : env.imgMainOk
  · by_cases h2 : env.imgOverlayOk
    · by_cases h3 : env.imgSaveOk
      · simp [h1, h2, h3] at h
      · exact ⟨PyErr.imageError, s, by simp [h1, h2, h3]⟩
    · cases h4 : (fix_paths_on_merge_failure cfg.overlay_mode s).mem.path_without_overlay
      · exact ⟨PyErr.attributeError, fix_paths_on_merge_failure cfg.overlay_mode s,
          by simp [h1, h2, h4]⟩
      next q =>
        exact ⟨PyErr.imageError,
          (fix_paths_on_merge_failure cfg.overlay_mode s).write q (Data.raw md),
          by simp [h1, h2, h4]⟩
  · exact ⟨PyErr.imageError, s, by simp [h1]⟩

/-- A failing ffmpeg invocation: overlay written, process run, no merged
output. -/
theorem try_ffmpeg_false (a b c : String) (d e : Data) (s : ISt) :
    try_ffmpeg_merge false a b c d e s =
      (false, (s.write b d).ev (Ev.ffmpegRun a b c)) := rfl

/-- Video compositing raises when the first ffmpeg attempt fails and the
repair-and-retry does not cure it. -/
theorem merge_video_err (cfg : Config) (env : ItemEnv) (p : String)
    (md ov : Bytes) (s : ISt) (h1 : env.ffmpeg1Ok = false)
    (h2 : env.pilReOk = false ∨ env.ffmpeg2Ok = false) :
    ∃ e s₁, merge_video_overlay cfg env p md (some ov) s =
      (Except.error e, s₁) := by
  unfold merge_video_overlay
  rw [h1]
  simp only [try_ffmpeg_false]
  by_cases hp : env.pilReOk
  · rcases h2 with h2 | h2
    · rw [h2] at hp
      simp at hp
    · rw [h2]
      simp only [try_ffmpeg_false, hp, ite_true, if_pos]
      exact merge_video_fallback_err cfg md _
  · simp only [hp, ite_false, if_neg, Bool.false_eq_true]
    exact merge_video_fallback_err cfg md _

/-- The media-kind dispatch raises when the compositor raises. -/
theorem mergeByType_err (cfg : Config) (env : ItemEnv) (p : String)
    (md ov : Bytes) (s : ISt) (h : mergeFails env s.mem.media_type) :
    ∃ e s₁, mergeByType cfg env p md (some ov) s = (Except.error e, s₁) := by
  unfold mergeByType
  cases hmt : s.mem.media_type
  · rw [hmt] at h
    obtain ⟨e, s₁, hm⟩ := merge_image_err cfg env p md ov s h
    exact ⟨e, s₁, by simp [hm]⟩
  · rw [hmt] at h
    obtain ⟨e, s₁, hm⟩ := merge_video_err cfg env p md ov s h.1 h.2
    exact ⟨e, s₁, by simp [hm]⟩

/-- Decomposition errors raise inside the decomposer try-block. -/
theorem zip_body_err_cat3 (cfg : Config) (env : ItemEnv) (op : String)
    (s : ISt)
    (h : env.zipOpenOk = false ∨
      (env.zipEntries.map (fun e => e.1)).find?
        (fun f => strContains f "-main") = none) :
    ∃ e s₁, process_zip_body cfg env op s = (Except.error e, s₁) := by
  unfold process_zip_body
  by_cases hz : env.zipOpenOk
  · rcases h with h | h
    · rw [h] at hz
      simp at hz
    · exact ⟨PyErr.valueError, s, by simp [hz, h]⟩
  · exact ⟨PyErr.zipError, s, by simp [hz]⟩

/-- The `both`-mode branch raises when compositing fails. -/
theorem zip_both_branch_err (cfg : Config) (env : ItemEnv)
    (p₁ p₂ : String) (md ov : Bytes) (s : ISt)
    (h : mergeFails env s.mem.media_type) :
    ∃ e s₁, zip_both_branch cfg env p₁ p₂ md (some ov) s =
      (Except.error e, s₁) := by
  unfold zip_both_branch
  obtain ⟨e, s₁, hm⟩ := mergeByType_err cfg env p₁ md ov
    (s.setMem { s.mem with path_with_overlay := some p₁,
                           path_without_overlay := some p₂ }) h
  exact ⟨e, s₁, by simp [hm]⟩

/-- The `with`-mode branch raises when compositing fails. -/
theorem zip_with_branch_err (cfg : Config) (env : ItemEnv)
    (p : String) (md ov : Bytes) (s : ISt)
    (h : mergeFails env s.mem.media_type) :
    ∃ e s₁, zip_with_branch cfg env p md (some ov) s =
      (Except.error e, s₁) := by
  unfold zip_with_branch
  obtain ⟨e, s₁, hm⟩ := mergeByType_err cfg env p md ov
    (s.setMem { s.mem with path_with_overlay := some p }) h
  exact ⟨e, s₁, hm⟩

/-- Composite errors raise inside the decomposer try-block. -/
theorem zip_body_err_cat4 (cfg : Config) (env : ItemEnv) (op : String)
    (s : ISt) (hz : env.zipOpenOk = true) (mf ovf : String)
    (hmf : (env.zipEntries.map (fun e => e.1)).find?
      (fun f => strContains f "-main") = some mf)
    (hof : (env.zipEntries.map (fun e => e.1)).find?
      (fun f => strContains f "-overlay") = some ovf)
    (h : mergeFails env s.mem.media_type) :
    ∃ e s₁, process_zip_body cfg env op s = (Except.error e, s₁) := by
  unfold process_zip_body
  simp only [hz, not_true_eq_false, Bool.false_eq_true, if_neg, ite_false,
    hmf, hof, Option.map_some]
  repeat' split
  all_goals
    first
      | exact zip_both_branch_err cfg env _ _ _ _ _ h
      | exact zip_with_branch_err cfg env _ _ _ _ h

/-- Under overlay modes with/both no indirection call happens. -/
theorem mode_with_or_both (cfg : Config)
    (h : cfg.overlay_mode ≠ OverlayMode.omNone) :
    cfg.overlay_mode = OverlayMode.omWith ∨
    cfg.overlay_mode = OverlayMode.omBoth := by
  cases hcm : cfg.overlay_mode <;> simp_all

/-- Under a decomposition or composite error, the decomposer boundary
increments overlay_failed exactly once for the item. -/
theorem download_memory_overlay_cat34 (cfg : Config) (env : ItemEnv)
    (s : ISt)
    (h : category3 cfg env ∨ category4 cfg env s.mem) :
    (download_memory cfg env s).2.stats.overlay_failed =
      s.stats.overlay_failed + 1 := by
  have hrz : reachesZip cfg env := by
    rcases h with ⟨hr, _⟩ | ⟨hr, _⟩ <;> exact hr
  obtain ⟨hmode, hfetch, hct⟩ := hrz
  have hw := mode_with_or_both cfg hmode
  have hnz : ¬ (cfg.overlay_mode = OverlayMode.omNone ∨
      ¬ env.contentTypeZip = true) := by
    simp [hmode, hct]
  unfold download_memory download_memory_body
  rw [resolve_url, if_pos hw]
  simp only [hfetch, not_true_eq_false, Bool.false_eq_true, if_neg,
    ite_false, if_neg hnz, call_meta_err]
  set s₂ := s.ev (Ev.httpGet s.mem.media_download_url) with hs₂
  have hberr : ∃ e s₁, process_zip_body cfg env cfg.output_dir s₂ =
      (Except.error e, s₁) := by
    rcases h with ⟨_, h3⟩ | ⟨_, hz, ⟨mf, hmf⟩, ⟨ovf, hof⟩, hmerge⟩
    · exact zip_body_err_cat3 cfg env cfg.output_dir s₂ h3
    · exact zip_body_err_cat4 cfg env cfg.output_dir s₂ hz mf ovf hmf hof hmerge
  obtain ⟨e, s₁, hb⟩ := hberr
  have hcore := process_zip_body_core cfg env cfg.output_dir s₂
  rw [hb] at hcore
  simp only at hcore
  have hpe := process_zip_err cfg env cfg.output_dir env.body s₂ e s₁ hb
  simp only [coreStats, Prod.ext_iff] at hcore hpe
  simp only [hpe.2.2.2]
  have : s₂.stats.overlay_failed = s.stats.overlay_failed := rfl
  omega

/-- process_and_update leaves overlay_failed as download_memory left it. -/
theorem process_and_update_overlay (cfg : Config) (env : ItemEnv) (s : ISt) :
    (process_and_update cfg env s).stats.overlay_failed =
      (download_memory cfg env s).2.stats.overlay_failed := by
  unfold process_and_update
  rcases hr : download_memory cfg env s with ⟨⟨succ, b⟩, s'⟩
  cases succ <;> simp [hr, ISt.bump]

/-! ### Scheduler lemmas -/

/-- Every scheduler transition preserves the permit-accounting
invariant. -/
theorem schedStep_inv {N : Nat} {σ σ' : Sched} (h : SchedStep σ σ')
    (hi : permitInv N σ) : permitInv N σ' := by
  unfold permitInv at *
  cases h <;>
    simp_all [runningCount, List.countP_append, List.countP_cons] <;>
    omega

/-- The invariant propagates along any reachable execution. -/
theorem schedReach_inv {N : Nat} {σ σ' : Sched} (h : SchedReach σ σ')
    (hi : permitInv N σ) : permitInv N σ' := by
  induction h with
  | refl => exact hi
  | tail _ hstep ih => exact schedStep_inv hstep ih

/-- The initial scheduler state satisfies the invariant. -/
theorem schedInit_inv (cfg : Config) (n : Nat) :
    permitInv cfg.max_concurrent (schedInit cfg n) := by
  unfold permitInv schedInit runningCount
  have h : ∀ k, (List.replicate k TaskPhase.waiting).countP
      (fun t => match t with | TaskPhase.running _ => true | _ => false) = 0 := by
    intro k
    induction k with
    | zero => rfl
    | succ k ih => simp [List.replicate_succ, List.countP_cons, ih]
  simp [h]

/-- In a state where every task has finished, no task is running. -/
theorem runningCount_all_finished (ts : List TaskPhase)
    (h : ∀ t ∈ ts, t = TaskPhase.finished) : runningCount ts = 0 := by
  unfold runningCount
  rw [List.countP_eq_zero]
  intro t ht
  rw [h t ht]
  simp

/-! ### Filter lemmas -/

/-- Full characterization of the existence-filter fold: the returned
download list is exactly the non-members (in order), the skipped counter
advances by the member count, and nothing else changes. -/
theorem filter_fold_spec (cfg : Config) (ex : List String)
    (items : List (Memory × ItemEnv)) :
    ∀ acc : List (Memory × ItemEnv) × GSt,
      (items.foldl (filter_fold_step cfg ex) acc).1 =
        acc.1 ++ items.filter (fun it => ¬ ex.contains (skipBase cfg it.1)) ∧
      (items.foldl (filter_fold_step cfg ex) acc).2.stats.skipped =
        acc.2.stats.skipped +
          (items.filter (fun it => ex.contains (skipBase cfg it.1))).length ∧
      (items.foldl (filter_fold_step cfg ex) acc).2.files = acc.2.files ∧
      (items.foldl (filter_fold_step cfg ex) acc).2.events = acc.2.events := by
  induction items with
  | nil => intro acc; simp
  | cons a t ih =>
    intro acc
    simp only [List.foldl_cons, List.filter_cons]
    by_cases ha : ex.contains (skipBase cfg a.1)
    · obtain ⟨h1, h2, h3, h4⟩ := ih (filter_fold_step cfg ex acc a)
      refine ⟨?_, ?_, ?_, ?_⟩ <;>
        simp_all [filter_fold_step, ha] <;> omega
    · obtain ⟨h1, h2, h3, h4⟩ := ih (filter_fold_step cfg ex acc a)
      refine ⟨?_, ?_, ?_, ?_⟩ <;>
        simp_all [filter_fold_step, ha]

/-! ### Event-trace lemmas -/

/-- A write shows its own content at its own path. -/
theorem fileAt_write_self (s : ISt) (p : String) (d : Data) :
    (s.write p d).fileAt p = some d := by
  simp [ISt.write, ISt.fileAt, List.find?_cons]

/-- The failure-repair procedure only appends unlink or rename events. -/
theorem fix_paths_tail (mode : OverlayMode) (s : ISt) :
    ∃ tail, (fix_paths_on_merge_failure mode s).events = s.events ++ tail ∧
      tail.filter isFfmpegEv = [] ∧ tail.filter isReencWrite = [] := by
  unfold fix_paths_on_merge_failure
  split
  · rcases hpw : s.mem.path_with_overlay with _ | pw
    · exact ⟨[], by simp [ISt.setMem, hpw], rfl, rfl⟩
    · simp only [hpw]
      unfold ISt.unlinkMissingOk
      split
      · exact ⟨[Ev.unlink pw], by simp [ISt.setMem], rfl, rfl⟩
      · exact ⟨[], by simp [ISt.setMem], rfl, rfl⟩
  · split
    · rcases hpw : s.mem.path_with_overlay with _ | pw
      · exact ⟨[], by simp [hpw], rfl, rfl⟩
      · simp only [hpw]
        split
        · refine ⟨[Ev.rename pw (pjoin (parentOf pw)
            (strReplace (basename pw) "_overlayed" ""))], ?_, rfl, rfl⟩
          unfold ISt.renameFile
          split <;> simp [ISt.setMem]
        · exact ⟨[], by simp, rfl, rfl⟩
    · exact ⟨[], by simp, rfl, rfl⟩

/-- The video fallback handler only appends unlink / rename / raw-write
events: no external-process invocation and no re-encode write occurs in
it. -/
theorem merge_video_fallback_tail (cfg : Config) (md : Bytes) (s : ISt) :
    ∃ tail, ((merge_video_fallback cfg md s).2).events = s.events ++ tail ∧
      tail.filter isFfmpegEv = [] ∧ tail.filter isReencWrite = [] := by
  obtain ⟨t1, ht1, hf1, hr1⟩ := fix_paths_tail cfg.overlay_mode s
  unfold merge_video_fallback
  rcases hq : (fix_paths_on_merge_failure cfg.overlay_mode s).mem.path_without_overlay
      with _ | q
  · refine ⟨t1, ?_, hf1, hr1⟩
    simp only [hq]
    exact ht1
  · refine ⟨t1 ++ [Ev.write q (Data.raw md)], ?_, ?_, ?_⟩
    · simp only [hq, ISt.write]
      rw [ht1, List.append_assoc]
    · simp [List.filter_append, hf1, isFfmpegEv]
    · simp [List.filter_append, hr1, isReencWrite]

/-- Under `both` mode, the fallback write succeeds: the overlay-free
primary bytes land at the recorded without-overlay path. -/
theorem merge_video_fallback_both_file (cfg : Config) (md : Bytes)
    (s : ISt) (q : String) (hm : cfg.overlay_mode = OverlayMode.omBoth)
    (hq : s.mem.path_without_overlay = some q) :
    ∃ s₁, merge_video_fallback cfg md s = (Except.error PyErr.runtimeError, s₁) ∧
      s₁.fileAt q = some (Data.raw md) := by
  have hq' : (fix_paths_on_merge_failure cfg.overlay_mode s).mem.path_without_overlay
      = some q := by
    unfold fix_paths_on_merge_failure
    rcases hpw : s.mem.path_with_overlay with _ | pw <;>
      simp [hm, hpw, ISt.setMem, ISt.unlinkMissingOk, hq] <;>
      split <;> simp [hq]
  unfold merge_video_fallback
  simp only [hq']
  exact ⟨_, rfl, fileAt_write_self _ q (Data.raw md)⟩

/-- Trace of a first-attempt video composite success: primary and overlay
written to the temp directory, one ffmpeg run, the merged result read
back and written directly to the output path. -/
theorem merge_video_trace_ok1 (cfg : Config) (env : ItemEnv) (op : String)
    (md ov : Bytes) (s : ISt) (hev : s.events = [])
    (h1 : env.ffmpeg1Ok = true) :
    merge_video_overlay cfg env op md (some ov) s =
      (Except.ok (),
        (((((s.write (pjoin env.tmpdir "main.mp4") (Data.raw md)).write
          (pjoin env.tmpdir (if isWebpSig ov then "overlay.webp" else "overlay.png"))
          (Data.raw ov)).ev
            (Ev.ffmpegRun (pjoin env.tmpdir "main.mp4")
              (pjoin env.tmpdir (if isWebpSig ov then "overlay.webp" else "overlay.png"))
              (pjoin env.tmpdir "merged.mp4"))).write
          (pjoin env.tmpdir "merged.mp4")
          (Data.mergedVideo (Data.raw md) (Data.raw ov))).write op
          (Data.mergedVideo (Data.raw md) (Data.raw ov)))) ∧
    ((merge_video_overlay cfg env op md (some ov) s).2).events =
      [Ev.write (pjoin env.tmpdir "main.mp4") (Data.raw md),
       Ev.write (pjoin env.tmpdir (if isWebpSig ov then "overlay.webp" else "overlay.png"))
         (Data.raw ov),
       Ev.ffmpegRun (pjoin env.tmpdir "main.mp4")
         (pjoin env.tmpdir (if isWebpSig ov then "overlay.webp" else "overlay.png"))
         (pjoin env.tmpdir "merged.mp4"),
       Ev.write (pjoin env.tmpdir "merged.mp4")
         (Data.mergedVideo (Data.raw md) (Data.raw ov)),
       Ev.write op (Data.mergedVideo (Data.raw md) (Data.raw ov))] := by
  constructor
  · unfold merge_video_overlay try_ffmpeg_merge
    simp [h1]
  · unfold merge_video_overlay try_ffmpeg_merge
    simp [h1, ISt.write, ISt.ev, hev]

/-- Trace of a repaired video composite: the failing first attempt, one
PIL re-encode (same container format), one retry, direct write of the
merged result to the output path. -/
theorem merge_video_trace_retry_ok (cfg : Config) (env : ItemEnv)
    (op : String) (md ov : Bytes) (s : ISt) (hev : s.events = [])
    (h1 : env.ffmpeg1Ok = false) (hp : env.pilReOk = true)
    (h2 : env.ffmpeg2Ok = true) :
    (merge_video_overlay cfg env op md (some ov) s).1 = Except.ok () ∧
    ((merge_video_overlay cfg env op md (some ov) s).2).events =
      [Ev.write (pjoin env.tmpdir "main.mp4") (Data.raw md),
       Ev.write (pjoin env.tmpdir (if isWebpSig ov then "overlay.webp" else "overlay.png"))
         (Data.raw ov),
       Ev.ffmpegRun (pjoin env.tmpdir "main.mp4")
         (pjoin env.tmpdir (if isWebpSig ov then "overlay.webp" else "overlay.png"))
         (pjoin env.tmpdir "merged.mp4"),
       Ev.write env.ntfPath (Data.reencoded (isWebpSig ov) (Data.raw ov)),
       Ev.unlink env.ntfPath,
       Ev.write (pjoin env.tmpdir (if isWebpSig ov then "overlay.webp" else "overlay.png"))
         (Data.reencoded (isWebpSig ov) (Data.raw ov)),
       Ev.ffmpegRun (pjoin env.tmpdir "main.mp4")
         (pjoin env.tmpdir (if isWebpSig ov then "overlay.webp" else "overlay.png"))
         (pjoin env.tmpdir "merged.mp4"),
       Ev.write (pjoin env.tmpdir "merged.mp4")
         (Data.mergedVideo (Data.raw md) (Data.reencoded (isWebpSig ov) (Data.raw ov))),
       Ev.write op
         (Data.mergedVideo (Data.raw md) (Data.reencoded (isWebpSig ov) (Data.raw ov)))] := by
  constructor
  · unfold merge_video_overlay try_ffmpeg_merge
    simp [h1, hp, h2]
  · unfold merge_video_overlay try_ffmpeg_merge
    simp [h1, hp, h2, ISt.write, ISt.ev, hev]

/-- The fallback handler raises and appends only unlink / rename /
raw-write events after the given event prefix. -/
theorem merge_video_fallback_full (cfg : Config) (md : Bytes) (s : ISt)
    (pre : List Ev) (hpre : s.events = pre) :
    ∃ e s₁ tail, merge_video_fallback cfg md s = (Except.error e, s₁) ∧
      s₁.events = pre ++ tail ∧ tail.filter isFfmpegEv = [] ∧
      tail.filter isReencWrite = [] := by
  obtain ⟨e, s₁, hfb⟩ := merge_video_fallback_err cfg md s
  obtain ⟨tail, ht, hf, hr⟩ := merge_video_fallback_tail cfg md s
  rw [hfb] at ht
  simp only at ht
  exact ⟨e, s₁, tail, hfb, by rw [ht, hpre], hf, hr⟩

/-- Trace of a video composite failure without a usable repair (PIL
re-encode itself fails): one ffmpeg attempt, then the fallback handler. -/
theorem merge_video_trace_fail_nopil (cfg : Config) (env : ItemEnv)
    (op : String) (md ov : Bytes) (s : ISt) (hev : s.events = [])
    (h1 : env.ffmpeg1Ok = false) (hp : env.pilReOk = false) :
    ∃ e s' tail, merge_video_overlay cfg env op md (some ov) s =
        (Except.error e, s') ∧
      s'.events =
        [Ev.write (pjoin env.tmpdir "main.mp4") (Data.raw md),
         Ev.write (pjoin env.tmpdir (if isWebpSig ov then "overlay.webp" else "overlay.png"))
           (Data.raw ov),
         Ev.ffmpegRun (pjoin env.tmpdir "main.mp4")
           (pjoin env.tmpdir (if isWebpSig ov then "overlay.webp" else "overlay.png"))
           (pjoin env.tmpdir "merged.mp4")] ++ tail ∧
      tail.filter isFfmpegEv = [] ∧ tail.filter isReencWrite = [] := by
  unfold merge_video_overlay try_ffmpeg_merge
  simp only [h1, hp, Bool.false_eq_true, ite_false, if_neg]
  exact merge_video_fallback_full cfg md _ _ (by simp [ISt.write, ISt.ev, hev])

/-- Trace of a video composite failure after the repair retry: two
ffmpeg attempts, one re-encode, then the fallback handler. -/
theorem merge_video_trace_fail_retry (cfg : Config) (env : ItemEnv)
    (op : String) (md ov : Bytes) (s : ISt) (hev : s.events = [])
    (h1 : env.ffmpeg1Ok = false) (hp : env.pilReOk = true)
    (h2 : env.ffmpeg2Ok = false) :
    ∃ e s' tail, merge_video_overlay cfg env op md (some ov) s =
        (Except.error e, s') ∧
      s'.events =
        [Ev.write (pjoin env.tmpdir "main.mp4") (Data.raw md),
         Ev.write (pjoin env.tmpdir (if isWebpSig ov then "overlay.webp" else "overlay.png"))
           (Data.raw ov),
         Ev.ffmpegRun (pjoin env.tmpdir "main.mp4")
           (pjoin env.tmpdir (if isWebpSig ov then "overlay.webp" else "overlay.png"))
           (pjoin env.tmpdir "merged.mp4"),
         Ev.write env.ntfPath (Data.reencoded (isWebpSig ov) (Data.raw ov)),
         Ev.unlink env.ntfPath,
         Ev.write (pjoin env.tmpdir (if isWebpSig ov then "overlay.webp" else "overlay.png"))
           (Data.reencoded (isWebpSig ov) (Data.raw ov)),
         Ev.ffmpegRun (pjoin env.tmpdir "main.mp4")
           (pjoin env.tmpdir (if isWebpSig ov then "overlay.webp" else "overlay.png"))
           (pjoin env.tmpdir "merged.mp4")] ++ tail ∧
      tail.filter isFfmpegEv = [] ∧ tail.filter isReencWrite = [] := by
  unfold merge_video_overlay try_ffmpeg_merge
  simp only [h1, hp, h2, Bool.false_eq_true, ite_false, ite_true, if_neg, if_pos]
  exact merge_video_fallback_full cfg md _ _ (by simp [ISt.write, ISt.ev, hev])

/-- When every item's base name is already present, the filter skips
everything: empty download list, skipped counter advanced by the item
count, events untouched. -/
theorem filter_all_skipped (cfg : Config) (g1 : GSt)
    (items : List (Memory × ItemEnv)) (hskip : cfg.skip_existing = true)
    (hall : ∀ it ∈ items,
      (build_existing_files_set g1 cfg.output_dir).contains
        (skipBase cfg it.1) = true) :
    (filter_memories_to_download cfg g1 items).1 = [] ∧
    (filter_memories_to_download cfg g1 items).2.stats.skipped =
      g1.stats.skipped + items.length ∧
    (filter_memories_to_download cfg g1 items).2.events = g1.events := by
  unfold filter_memories_to_download
  rw [if_neg (by simp [hskip])]
  obtain ⟨h1, h2, h3, h4⟩ :=
    filter_fold_spec cfg (build_existing_files_set g1 cfg.output_dir) items ([], g1)
  have hfe : items.filter (fun it =>
      ¬ (build_existing_files_set g1 cfg.output_dir).contains
        (skipBase cfg it.1)) = [] := by
    rw [List.filter_eq_nil_iff]
    intro it hit
    have hc := hall it hit
    simp only [hc]
    simp
  have hfc : items.filter (fun it =>
      (build_existing_files_set g1 cfg.output_dir).contains
        (skipBase cfg it.1)) = items :=
    List.filter_eq_self.mpr hall
  refine ⟨?_, ?_, h4⟩
  · rw [h1, hfe]
    rfl
  · rw [h2, hfc]

/-- Under `both` mode the fallback leaves the overlay-free primary at the
recorded without-overlay path (result-state form for unification). -/
theorem merge_video_fallback_both_fileAt (cfg : Config) (md : Bytes)
    (s : ISt) (q : String) (hm : cfg.overlay_mode = OverlayMode.omBoth)
    (hq : s.mem.path_without_overlay = some q) :
    ((merge_video_fallback cfg md s).2).fileAt q = some (Data.raw md) := by
  obtain ⟨s₁, hfb, hfile⟩ := merge_video_fallback_both_file cfg md s q hm hq
  rw [hfb]
  exact hfile

/-! ### Claim theorems -/

/-- C1: the spec requires that an overlay-compositing failure still leave
a valid overlay-free file at the without-overlay destination under both
`both` and `with` modes, with the overlay-failed counter incremented
exactly once.  The code keeps this promise under `both` mode (the
without-overlay file is written and overlay_failed is 1), but under
`with` mode the repair procedure repoints nothing (the with-overlay file
was never written, so the `exists()` guard in fix_paths_on_merge_failure
is false), path_without_overlay stays None, and the fallback write
`memory.path_without_overlay.write_bytes(main_data)` raises
AttributeError: no overlay-free file exists at the canonical non-overlay
destination (nor anywhere outside the error artifacts). -/
theorem C1_with_mode_repair_bug :
    (download_memory cfgW envImgFail (istInit memI)).2.stats.overlay_failed = 1 ∧
    (download_memory cfgW envImgFail (istInit memI)).2.mem.path_without_overlay = none ∧
    (download_memory cfgW envImgFail (istInit memI)).2.fileAt
      "out/2021-06-15_12-00-00_v1.jpg" = none ∧
    (download_memory cfgW envImgFail (istInit memI)).2.fileAt
      "out/2021-06-15_12-00-00_v1_overlayed.jpg" = none ∧
    (download_memory cfgW envImgFail (istInit memI)).1 = (false, 0) ∧
    (download_memory cfgB envImgFail (istInit memI)).2.fileAt
      "out/without_overlays/2021-06-15_12-00-00_v1.jpg" =
        some (Data.raw [1, 2, 3]) ∧
    (download_memory cfgB envImgFail (istInit memI)).2.stats.overlay_failed = 1 := by
  decide

/-- C2 counterexample: the claim that a final output appears at its
destination only via an atomic rename is false: a fully successful
`with`-mode video item materializes its output by a direct write event
into the primary output tree, and the whole run performs no rename at
all. -/
theorem C2_direct_write_counterexample :
    ¬ outputsOnlyViaRename "out"
        ((download_memory cfgW envBase (istInit memV)).2.events) ∧
    ((download_memory cfgW envBase (istInit memV)).2.events.filter
      isRenameEv) = [] := by
  constructor
  · intro h
    have hm : Ev.write "out/2021-06-15_12-00-00_v1_overlayed.mp4"
        (Data.mergedVideo (Data.raw [1, 2, 3]) (Data.raw [9, 9])) ∈
        (download_memory cfgW envBase (istInit memV)).2.events := by decide
    have hu := h _ _ hm
    have ht : underDir "out" "out/2021-06-15_12-00-00_v1_overlayed.mp4" = true := by
      decide
    rw [ht] at hu
    exact absurd hu (by decide)
  · decide

/-- C2 amended: the video compositor confines its intermediates to the
private temporary directory (and the system temp file of the repair
pass); the final output is materialized at the destination by one direct
full-content write after the composite succeeds — not by a rename.  The
traces of both success paths are exactly as listed. -/
theorem C2_temp_isolation_direct_write (cfg : Config) (env : ItemEnv)
    (op : String) (md ov : Bytes) (s : ISt) (hev : s.events = []) :
    (env.ffmpeg1Ok = true →
      ((merge_video_overlay cfg env op md (some ov) s).2).events =
        [Ev.write (pjoin env.tmpdir "main.mp4") (Data.raw md),
         Ev.write (pjoin env.tmpdir (if isWebpSig ov then "overlay.webp" else "overlay.png"))
           (Data.raw ov),
         Ev.ffmpegRun (pjoin env.tmpdir "main.mp4")
           (pjoin env.tmpdir (if isWebpSig ov then "overlay.webp" else "overlay.png"))
           (pjoin env.tmpdir "merged.mp4"),
         Ev.write (pjoin env.tmpdir "merged.mp4")
           (Data.mergedVideo (Data.raw md) (Data.raw ov)),
         Ev.write op (Data.mergedVideo (Data.raw md) (Data.raw ov))]) ∧
    (env.ffmpeg1Ok = false → env.pilReOk = true → env.ffmpeg2Ok = true →
      ((merge_video_overlay cfg env op md (some ov) s).2).events =
        [Ev.write (pjoin env.tmpdir "main.mp4") (Data.raw md),
         Ev.write (pjoin env.tmpdir (if isWebpSig ov then "overlay.webp" else "overlay.png"))
           (Data.raw ov),
         Ev.ffmpegRun (pjoin env.tmpdir "main.mp4")
           (pjoin env.tmpdir (if isWebpSig ov then "overlay.webp" else "overlay.png"))
           (pjoin env.tmpdir "merged.mp4"),
         Ev.write env.ntfPath (Data.reencoded (isWebpSig ov) (Data.raw ov)),
         Ev.unlink env.ntfPath,
         Ev.write (pjoin env.tmpdir (if isWebpSig ov then "overlay.webp" else "overlay.png"))
           (Data.reencoded (isWebpSig ov) (Data.raw ov)),
         Ev.ffmpegRun (pjoin env.tmpdir "main.mp4")
           (pjoin env.tmpdir (if isWebpSig ov then "overlay.webp" else "overlay.png"))
           (pjoin env.tmpdir "merged.mp4"),
         Ev.write (pjoin env.tmpdir "merged.mp4")
           (Data.mergedVideo (Data.raw md) (Data.reencoded (isWebpSig ov) (Data.raw ov))),
         Ev.write op
           (Data.mergedVideo (Data.raw md) (Data.reencoded (isWebpSig ov) (Data.raw ov)))]) := by
  constructor
  · intro h1
    exact (merge_video_trace_ok1 cfg env op md ov s hev h1).2
  · intro h1 hp h2
    exact (merge_video_trace_retry_ok cfg env op md ov s hev h1 hp h2).2

/-- C2 amended witness at a concrete successful video item. -/
theorem C2_witness :
    (envBase.ffmpeg1Ok = true →
      ((merge_video_overlay cfgW envBase "out/x.mp4" [1, 2, 3] (some [9, 9])
        (istInit memV)).2).events =
        [Ev.write (pjoin envBase.tmpdir "main.mp4") (Data.raw [1, 2, 3]),
         Ev.write (pjoin envBase.tmpdir
           (if isWebpSig [9, 9] then "overlay.webp" else "overlay.png"))
           (Data.raw [9, 9]),
         Ev.ffmpegRun (pjoin envBase.tmpdir "main.mp4")
           (pjoin envBase.tmpdir
             (if isWebpSig [9, 9] then "overlay.webp" else "overlay.png"))
           (pjoin envBase.tmpdir "merged.mp4"),
         Ev.write (pjoin envBase.tmpdir "merged.mp4")
           (Data.mergedVideo (Data.raw [1, 2, 3]) (Data.raw [9, 9])),
         Ev.write "out/x.mp4"
           (Data.mergedVideo (Data.raw [1, 2, 3]) (Data.raw [9, 9]))]) ∧
    (envBase.ffmpeg1Ok = false → envBase.pilReOk = true →
      envBase.ffmpeg2Ok = true →
      ((merge_video_overlay cfgW envBase "out/x.mp4" [1, 2, 3] (some [9, 9])
        (istInit memV)).2).events =
        [Ev.write (pjoin envBase.tmpdir "main.mp4") (Data.raw [1, 2, 3]),
         Ev.write (pjoin envBase.tmpdir
           (if isWebpSig [9, 9] then "overlay.webp" else "overlay.png"))
           (Data.raw [9, 9]),
         Ev.ffmpegRun (pjoin envBase.tmpdir "main.mp4")
           (pjoin envBase.tmpdir
             (if isWebpSig [9, 9] then "overlay.webp" else "overlay.png"))
           (pjoin envBase.tmpdir "merged.mp4"),
         Ev.write envBase.ntfPath
           (Data.reencoded (isWebpSig [9, 9]) (Data.raw [9, 9])),
         Ev.unlink envBase.ntfPath,
         Ev.write (pjoin envBase.tmpdir
           (if isWebpSig [9, 9] then "overlay.webp" else "overlay.png"))
           (Data.reencoded (isWebpSig [9, 9]) (Data.raw [9, 9])),
         Ev.ffmpegRun (pjoin envBase.tmpdir "main.mp4")
           (pjoin envBase.tmpdir
             (if isWebpSig [9, 9] then "overlay.webp" else "overlay.png"))
           (pjoin envBase.tmpdir "merged.mp4"),
         Ev.write (pjoin envBase.tmpdir "merged.mp4")
           (Data.mergedVideo (Data.raw [1, 2, 3])
             (Data.reencoded (isWebpSig [9, 9]) (Data.raw [9, 9]))),
         Ev.write "out/x.mp4"
           (Data.mergedVideo (Data.raw [1, 2, 3])
             (Data.reencoded (isWebpSig [9, 9]) (Data.raw [9, 9])))]) :=
  C2_temp_isolation_direct_write cfgW envBase "out/x.mp4" [1, 2, 3] [9, 9]
    (istInit memV) rfl

/-- C3: admission is gated by the counting semaphore created with
config.max_concurrent permits; in every state reachable from the initial
scheduler state the number of tasks inside their fetch/compose/write
stage never exceeds the bound, and once all tasks have finished (each
release happens on exiting the `async with` block, on success, failure
and exception alike) every permit has been returned. -/
theorem C3_concurrency_bound (cfg : Config) (n : Nat) (σ : Sched)
    (h : SchedReach (schedInit cfg n) σ) :
    runningCount σ.tasks ≤ cfg.max_concurrent ∧
    ((∀ t ∈ σ.tasks, t = TaskPhase.finished) →
      σ.avail = cfg.max_concurrent) := by
  have hi := schedReach_inv h (schedInit_inv cfg n)
  unfold permitInv at hi
  constructor
  · omega
  · intro hall
    have h0 := runningCount_all_finished σ.tasks hall
    omega

/-- C3 witness: a two-task batch after one admission. -/
theorem C3_witness :
    runningCount (Sched.mk
      [TaskPhase.running download_stages, TaskPhase.waiting] 1).tasks ≤
      cfgW.max_concurrent ∧
    ((∀ t ∈ (Sched.mk
        [TaskPhase.running download_stages, TaskPhase.waiting] 1).tasks,
        t = TaskPhase.finished) →
      (Sched.mk [TaskPhase.running download_stages, TaskPhase.waiting] 1).avail =
        cfgW.max_concurrent) :=
  C3_concurrency_bound cfgW 2 _
    (Relation.ReflTransGen.single (SchedStep.acquire [] [TaskPhase.waiting] 1))

/-- C4: an item hit by a resolution, fetch, decomposition or composite
error is never counted as downloaded and is counted as failed (for
decomposition/composite errors the decomposer boundary additionally
counts it as overlay-failed, exactly once); and the batch fold processes
every scheduled item, recording exactly one outcome per item, so no
item's failure aborts or affects the rest of the batch. -/
theorem C4_failure_isolation :
    (∀ (cfg : Config) (env : ItemEnv) (s : ISt),
      (category1 cfg env ∨ category2 cfg env ∨ category3 cfg env ∨
        category4 cfg env s.mem) →
      (process_and_update cfg env s).stats.downloaded = s.stats.downloaded ∧
      (process_and_update cfg env s).stats.failed = s.stats.failed + 1 ∧
      ((category3 cfg env ∨ category4 cfg env s.mem) →
        (process_and_update cfg env s).stats.overlay_failed =
          s.stats.overlay_failed + 1)) ∧
    (∀ (cfg : Config) (items : List (Memory × ItemEnv)) (g : GSt),
      (items.foldl (runItem cfg) g).stats.downloaded = g.stats.downloaded ∧
      (items.foldl (runItem cfg) g).stats.failed =
        g.stats.failed + items.length) := by
  constructor
  · intro cfg env s _
    obtain ⟨h1, h2⟩ := process_and_update_outcome cfg env s
    refine ⟨h1, h2, ?_⟩
    intro h34
    rw [process_and_update_overlay]
    exact download_memory_overlay_cat34 cfg env s h34
  · intro cfg items g
    exact batch_outcome cfg items g

/-- C4 witness at a concrete decomposition error (category 3). -/
theorem C4_witness :
    (process_and_update cfgW envZipBad (istInit memI)).stats.downloaded =
      (istInit memI).stats.downloaded ∧
    (process_and_update cfgW envZipBad (istInit memI)).stats.failed =
      (istInit memI).stats.failed + 1 ∧
    ((category3 cfgW envZipBad ∨ category4 cfgW envZipBad (istInit memI).mem) →
      (process_and_update cfgW envZipBad (istInit memI)).stats.overlay_failed =
        (istInit memI).stats.overlay_failed + 1) :=
  C4_failure_isolation.1 cfgW envZipBad (istInit memI)
    (Or.inr (Or.inr (Or.inl ⟨⟨by decide, by decide, by decide⟩,
      Or.inl (by decide)⟩)))

/-- C5: the claim that the metadata applier is invoked once per populated
result path and that its failures are non-fatal (item still counted as
downloaded) is broken by the call site: src/download.py line 131 passes
one positional argument to the two-parameter function defined at
src/metadata.py line 241, so the call raises TypeError before the
applier body runs; the item — here a fully successful direct download
whose output file is on disk — is counted as failed, not downloaded, and
no metadata application ever happens.  The applier itself, called with
its declared arity on the same state, would apply metadata exactly once
to the populated path. -/
theorem C5_metadata_call_bug :
    apply_metadata_call_argc < apply_metadata_arity ∧
    call_apply_metadata_and_timestamps (istInit memI) =
      (Except.error PyErr.typeError, istInit memI) ∧
    (download_memory cfgN envDirect (istInit memI)).1 = (false, 0) ∧
    (download_memory cfgN envDirect (istInit memI)).2.fileAt
      "out/2021-06-15_12-00-00_v1.jpg" = some (Data.raw [7, 7, 7, 7]) ∧
    ((download_memory cfgN envDirect (istInit memI)).2.events.filter
      isMetaApplyEv) = [] ∧
    (process_and_update cfgN envDirect (istInit memI)).stats.failed = 1 ∧
    (process_and_update cfgN envDirect (istInit memI)).stats.downloaded = 0 ∧
    (apply_metadata_and_timestamps
        (download_memory cfgN envDirect (istInit memI)).2).events =
      (download_memory cfgN envDirect (istInit memI)).2.events ++
        [Ev.metaApply "out/2021-06-15_12-00-00_v1.jpg"] := by
  refine ⟨by decide, rfl, by decide, by decide, by decide, by decide,
    by decide, by decide⟩

/-- C6 counterexample: the computed filename is not the spec's formula.
For a first-occurrence image captured 2021-06-15 12:00:00 UTC at
utc-offset -240 minutes, the code produces the UTC-formatted name with a
`_v1` suffix, while the spec formula (capture-local time, no suffix for
a non-duplicated timestamp) differs in both respects. -/
theorem C6_filename_counterexample :
    Memory.get_filename cfgW memI false 1 ≠ spec_filename cfgW memI false false 1 ∧
    Memory.get_filename cfgW memI false 1 = "2021-06-15_12-00-00_v1.jpg" ∧
    spec_filename cfgW memI false false 1 = "2021-06-15_08-00-00.jpg" := by
  decide

/-- C6 amended: the filename is
`[prefix_]<UTC-date>_<UTC-time>_v<occurrence>[_overlayed].<ext>`:
date/time are formatted YYYY-MM-DD_HH-MM-SS from the UTC rendition of
the capture instant (not capture-local), and the `_v<occurrence>` suffix
is always present (every occurrence ordinal is >= 1, including unique
timestamps); extension .jpg for images, .mp4 for videos. -/
theorem C6_filename_formula_thm (cfg : Config) (m : Memory) (ho : Bool)
    (occ : Nat) (h : 1 ≤ occ) :
    m.get_filename cfg ho occ = filename_formula cfg m ho occ := by
  unfold Memory.get_filename filename_formula
  rw [if_pos h]
  simp [String.append_assoc]

/-- C6 amended witness. -/
theorem C6_witness :
    Memory.get_filename cfgW memI false 1 = filename_formula cfgW memI false 1 :=
  C6_filename_formula_thm cfgW memI false 1 (by decide)

/-- C7: with skip-existing enabled the filter consults the set built by
one scan of the output tree; an item is put on the download list iff its
canonical base name is not in the set and is skipped (counter bumped)
iff it is; when every item is pre-seeded, the run leaves the skipped
counter advanced by exactly the item count and performs no network
request at all. -/
theorem C7_skip_existing (cfg : Config) (g : GSt)
    (items : List (Memory × ItemEnv)) (hskip : cfg.skip_existing = true) :
    ((filter_memories_to_download cfg g items).1 =
        items.filter (fun it =>
          ¬ (build_existing_files_set g cfg.output_dir).contains
            (skipBase cfg it.1)) ∧
      (filter_memories_to_download cfg g items).2.stats.skipped =
        g.stats.skipped + (items.filter (fun it =>
          (build_existing_files_set g cfg.output_dir).contains
            (skipBase cfg it.1))).length) ∧
    ((∀ it ∈ items,
        (build_existing_files_set g cfg.output_dir).contains
          (skipBase cfg it.1) = true) →
      (download_all cfg items g).stats.skipped =
        g.stats.skipped + items.length ∧
      (download_all cfg items g).events.filter isFetchEv =
        g.events.filter isFetchEv) := by
  constructor
  · unfold filter_memories_to_download
    rw [if_neg (by simp [hskip])]
    obtain ⟨h1, h2, _, _⟩ :=
      filter_fold_spec cfg (build_existing_files_set g cfg.output_dir)
        items ([], g)
    exact ⟨by simpa using h1, by simpa using h2⟩
  · intro hall
    unfold download_all
    by_cases hbm : cfg.overlay_mode = OverlayMode.omBoth ∧
        cfg.overlay_naming = OverlayNaming.separateFolders
    · simp only [if_pos hbm]
      obtain ⟨f1, f2, f3⟩ := filter_all_skipped cfg
        (((g.ev (Ev.mkdir cfg.output_dir)).ev
          (Ev.mkdir (pjoin cfg.output_dir WITH_OVERLAYS_DIR))).ev
          (Ev.mkdir (pjoin cfg.output_dir WITHOUT_OVERLAYS_DIR)))
        items hskip hall
      rw [f1]
      simp only [List.isEmpty_nil, ite_true, if_pos]
      refine ⟨f2, ?_⟩
      rw [f3]
      simp [GSt.ev, List.filter_append, isFetchEv]
    · simp only [if_neg hbm]
      obtain ⟨f1, f2, f3⟩ := filter_all_skipped cfg
        (g.ev (Ev.mkdir cfg.output_dir)) items hskip hall
      rw [f1]
      simp only [List.isEmpty_nil, ite_true, if_pos]
      refine ⟨f2, ?_⟩
      rw [f3]
      simp [GSt.ev, List.filter_append, isFetchEv]

/-- C7 witness: one pre-seeded item is skipped without any fetch. -/
theorem C7_witness :
    ((filter_memories_to_download cfgW gSeeded [(memI, envBase)]).1 =
        [(memI, envBase)].filter (fun it =>
          ¬ (build_existing_files_set gSeeded cfgW.output_dir).contains
            (skipBase cfgW it.1)) ∧
      (filter_memories_to_download cfgW gSeeded [(memI, envBase)]).2.stats.skipped =
        gSeeded.stats.skipped + ([(memI, envBase)].filter (fun it =>
          (build_existing_files_set gSeeded cfgW.output_dir).contains
            (skipBase cfgW it.1))).length) ∧
    ((∀ it ∈ [(memI, envBase)],
        (build_existing_files_set gSeeded cfgW.output_dir).contains
          (skipBase cfgW it.1) = true) →
      (download_all cfgW [(memI, envBase)] gSeeded).stats.skipped =
        gSeeded.stats.skipped + [(memI, envBase)].length ∧
      (download_all cfgW [(memI, envBase)] gSeeded).events.filter isFetchEv =
        gSeeded.events.filter isFetchEv) :=
  C7_skip_existing cfgW gSeeded [(memI, envBase)] rfl

/-- C8 counterexample: under `with` mode, after both ffmpeg attempts
fail, the claimed fallback ("write the overlay-free primary, repoint
paths") does not happen: exactly two composite attempts are made (so the
retry logic did run), yet the without-overlay path is never populated
and no file exists at the canonical non-overlay destination (the repair
finds no with-overlay file to repoint — it was never written — and the
fallback write of the overlay-free primary crashes on the None path). -/
theorem C8_with_mode_fallback_counterexample :
    ((download_memory cfgW envVidFail2 (istInit memV)).2.events.filter
      isFfmpegEv).length = 2 ∧
    (download_memory cfgW envVidFail2 (istInit memV)).2.mem.path_without_overlay =
      none ∧
    (download_memory cfgW envVidFail2 (istInit memV)).2.fileAt
      "out/2021-06-15_12-00-00_v1.mp4" = none ∧
    (download_memory cfgW envVidFail2 (istInit memV)).2.fileAt
      "out/2021-06-15_12-00-00_v1_overlayed.mp4" = none ∧
    (download_memory cfgW envVidFail2 (istInit memV)).2.stats.overlay_failed = 1 := by
  decide

/-- C8 amended: when the first external composite fails, exactly one
repair pass and exactly one retry occur — the external process is never
invoked more than twice; a first-attempt success means a single
invocation and no repair; when the repair path cannot cure the failure,
the compositor raises (so the decomposer boundary counts the item
overlay-failed), and under `both` mode the overlay-free primary is
written to the recorded without-overlay path; under `with` mode that
fallback write crashes before writing (the C1/C8 counterexample). -/
theorem C8_single_retry (cfg : Config) (env : ItemEnv) (op : String)
    (md ov : Bytes) (s : ISt) (hev : s.events = []) :
    (((merge_video_overlay cfg env op md (some ov) s).2).events.filter
      isFfmpegEv).length ≤ 2 ∧
    (env.ffmpeg1Ok = true →
      (((merge_video_overlay cfg env op md (some ov) s).2).events.filter
        isFfmpegEv).length = 1 ∧
      (((merge_video_overlay cfg env op md (some ov) s).2).events.filter
        isReencWrite).length = 0) ∧
    (env.ffmpeg1Ok = false → env.pilReOk = true →
      (((merge_video_overlay cfg env op md (some ov) s).2).events.filter
        isFfmpegEv).length = 2) ∧
    (env.ffmpeg1Ok = false → env.pilReOk = false →
      (((merge_video_overlay cfg env op md (some ov) s).2).events.filter
        isFfmpegEv).length = 1 ∧
      (((merge_video_overlay cfg env op md (some ov) s).2).events.filter
        isReencWrite).length = 0) ∧
    (env.ffmpeg1Ok = false → (env.pilReOk = false ∨ env.ffmpeg2Ok = false) →
      (∃ e, (merge_video_overlay cfg env op md (some ov) s).1 =
        Except.error e) ∧
      (cfg.overlay_mode = OverlayMode.omBoth →
        ∀ q, s.mem.path_without_overlay = some q →
          ((merge_video_overlay cfg env op md (some ov) s).2).fileAt q =
            some (Data.raw md))) := by
  refine ⟨?_, ?_, ?_, ?_, ?_⟩
  · by_cases h1 : env.ffmpeg1Ok
    · rw [(merge_video_trace_ok1 cfg env op md ov s hev h1).2]
      simp [isFfmpegEv]
    · have h1' : env.ffmpeg1Ok = false := by simpa using h1
      by_cases hp : env.pilReOk
      · by_cases h2 : env.ffmpeg2Ok
        · rw [(merge_video_trace_retry_ok cfg env op md ov s hev h1' hp h2).2]
          simp [isFfmpegEv]
        · obtain ⟨e, s', tail, hres, hev', hf, _⟩ :=
            merge_video_trace_fail_retry cfg env op md ov s hev h1' hp
              (by simpa using h2)
          rw [hres]
          simp only
          rw [hev']
          simp [List.filter_append, hf, isFfmpegEv]
      · obtain ⟨e, s', tail, hres, hev', hf, _⟩ :=
          merge_video_trace_fail_nopil cfg env op md ov s hev h1'
            (by simpa using hp)
        rw [hres]
        simp only
        rw [hev']
        simp [List.filter_append, hf, isFfmpegEv]
  · intro h1
    rw [(merge_video_trace_ok1 cfg env op md ov s hev h1).2]
    constructor <;> simp [isFfmpegEv, isReencWrite]
  · intro h1 hp
    by_cases h2 : env.ffmpeg2Ok
    · rw [(merge_video_trace_retry_ok cfg env op md ov s hev h1 hp h2).2]
      simp [isFfmpegEv]
    · obtain ⟨e, s', tail, hres, hev', hf, _⟩ :=
        merge_video_trace_fail_retry cfg env op md ov s hev h1 hp
          (by simpa using h2)
      rw [hres]
      simp only
      rw [hev']
      simp [List.filter_append, hf, isFfmpegEv]
  · intro h1 hp
    obtain ⟨e, s', tail, hres, hev', hf, hr⟩ :=
      merge_video_trace_fail_nopil cfg env op md ov s hev h1 hp
    rw [hres]
    simp only
    rw [hev']
    constructor
    · simp [List.filter_append, hf, isFfmpegEv]
    · simp [List.filter_append, hr, isReencWrite]
  · intro h1 hd
    constructor
    · obtain ⟨e, s₁, hm⟩ := merge_video_err cfg env op md ov s h1 hd
      exact ⟨e, by rw [hm]⟩
    · intro hmode q hq
      unfold merge_video_overlay try_ffmpeg_merge
      rcases hd with hp | h2
      · simp only [h1, hp, Bool.false_eq_true, ite_false, if_neg]
        exact merge_video_fallback_both_fileAt cfg md _ q hmode hq
      · by_cases hp2 : env.pilReOk
        · simp only [h1, hp2, h2, Bool.false_eq_true, ite_false, ite_true,
            if_neg, if_pos]
          exact merge_video_fallback_both_fileAt cfg md _ q hmode hq
        · simp only [h1, hp2, Bool.false_eq_true, ite_false, if_neg]
          exact merge_video_fallback_both_fileAt cfg md _ q hmode hq

/-- C8 amended witness: a `both`-mode video with both attempts failing. -/
theorem C8_witness :
    (((merge_video_overlay cfgB envVidFail2
      "out/with_overlays/2021-06-15_12-00-00_v1_overlayed.mp4"
      [1, 2, 3] (some [9, 9]) istVidBoth).2).events.filter
        isFfmpegEv).length ≤ 2 :=
  (C8_single_retry cfgB envVidFail2
    "out/with_overlays/2021-06-15_12-00-00_v1_overlayed.mp4"
    [1, 2, 3] [9, 9] istVidBoth rfl).1

/-- C9 counterexample: for a WebP overlay (RIFF/WEBP signature), the
bytes handed to the video compositor are the original WebP bytes,
written unmodified to a ".webp"-named temp file and consumed by ffmpeg;
no conversion (re-encode) occurs anywhere in the run, and the merged
output is built from the raw WebP overlay — the claimed in-memory
WebP-to-PNG normalization does not exist in the code. -/
theorem C9_webp_not_converted_counterexample :
    isWebpSig [0x52, 0x49, 0x46, 0x46, 0, 0, 0, 0, 0x57, 0x45, 0x42, 0x50, 5] =
      true ∧
    Ev.write "TMP/overlay.webp"
      (Data.raw [0x52, 0x49, 0x46, 0x46, 0, 0, 0, 0, 0x57, 0x45, 0x42, 0x50, 5]) ∈
      (download_memory cfgW envWebp (istInit memV)).2.events ∧
    Ev.ffmpegRun "TMP/main.mp4" "TMP/overlay.webp" "TMP/merged.mp4" ∈
      (download_memory cfgW envWebp (istInit memV)).2.events ∧
    ((download_memory cfgW envWebp (istInit memV)).2.events.filter
      isReencWrite) = [] ∧
    (download_memory cfgW envWebp (istInit memV)).2.fileAt
      "out/2021-06-15_12-00-00_v1_overlayed.mp4" =
      some (Data.mergedVideo (Data.raw [1, 2, 3])
        (Data.raw [0x52, 0x49, 0x46, 0x46, 0, 0, 0, 0, 0x57, 0x45, 0x42, 0x50, 5])) := by
  decide

/-- C9 amended: a WebP overlay is detected by its RIFF/WEBP container
signature, but instead of converting it to PNG the code passes the bytes
unconverted and merely names the overlay temp file "overlay.webp" (so
ffmpeg sniffs the right container): every ffmpeg invocation consumes the
".webp"-named temp file, and any repair re-encode preserves the WebP
format (re-encoded data carries asWebp = true and derives from the
original bytes). -/
theorem C9_webp_unconverted (cfg : Config) (env : ItemEnv) (op : String)
    (md ov : Bytes) (s : ISt) (hev : s.events = [])
    (hwebp : isWebpSig ov = true) :
    Ev.write (pjoin env.tmpdir "overlay.webp") (Data.raw ov) ∈
      ((merge_video_overlay cfg env op md (some ov) s).2).events ∧
    (∀ a b c, Ev.ffmpegRun a b c ∈
      ((merge_video_overlay cfg env op md (some ov) s).2).events →
      b = pjoin env.tmpdir "overlay.webp") ∧
    (∀ p b d, Ev.write p (Data.reencoded b d) ∈
      ((merge_video_overlay cfg env op md (some ov) s).2).events →
      b = true ∧ d = Data.raw ov) := by
  by_cases h1 : env.ffmpeg1Ok
  · rw [(merge_video_trace_ok1 cfg env op md ov s hev h1).2]
    refine ⟨?_, ?_, ?_⟩
    · simp [hwebp]
    · intro a b c hm
      simp [hwebp] at hm <;> tauto
    · intro p b d hm
      simp [hwebp] at hm <;> tauto
  · have h1' : env.ffmpeg1Ok = false := by simpa using h1
    by_cases hp : env.pilReOk
    · by_cases h2 : env.ffmpeg2Ok
      · rw [(merge_video_trace_retry_ok cfg env op md ov s hev h1' hp h2).2]
        refine ⟨?_, ?_, ?_⟩
        · simp [hwebp]
        · intro a b c hm
          simp [hwebp] at hm <;> tauto
        · intro p b d hm
          simp [hwebp] at hm <;> tauto
      · obtain ⟨e, s', tail, hres, hev', hf, hr⟩ :=
          merge_video_trace_fail_retry cfg env op md ov s hev h1' hp
            (by simpa using h2)
        rw [hres]
        simp only
        rw [hev']
        refine ⟨?_, ?_, ?_⟩
        · simp [hwebp]
        · intro a b c hm
          rw [List.mem_append] at hm
          rcases hm with hm | hm
          · simp [hwebp] at hm <;> tauto
          · exfalso
            have := List.filter_eq_nil_iff.mp hf _ hm
            simp [isFfmpegEv] at this
        · intro p b d hm
          rw [List.mem_append] at hm
          rcases hm with hm | hm
          · simp [hwebp] at hm <;> tauto
          · exfalso
            have := List.filter_eq_nil_iff.mp hr _ hm
            simp [isReencWrite] at this
    · obtain ⟨e, s', tail, hres, hev', hf, hr⟩ :=
        merge_video_trace_fail_nopil cfg env op md ov s hev h1'
          (by simpa using hp)
      rw [hres]
      simp only
      rw [hev']
      refine ⟨?_, ?_, ?_⟩
      · simp [hwebp]
      · intro a b c hm
        rw [List.mem_append] at hm
        rcases hm with hm | hm
        · simp [hwebp] at hm <;> tauto
        · exfalso
          have := List.filter_eq_nil_iff.mp hf _ hm
          simp [isFfmpegEv] at this
      · intro p b d hm
        rw [List.mem_append] at hm
        rcases hm with hm | hm
        · simp [hwebp] at hm <;> tauto
        · exfalso
          have := List.filter_eq_nil_iff.mp hr _ hm
          simp [isReencWrite] at this

/-- C9 amended witness at the concrete WebP overlay. -/
theorem C9_witness :
    Ev.write (pjoin envWebp.tmpdir "overlay.webp")
      (Data.raw [0x52, 0x49, 0x46, 0x46, 0, 0, 0, 0, 0x57, 0x45, 0x42, 0x50, 5]) ∈
      ((merge_video_overlay cfgW envWebp "out/x.mp4" [1, 2, 3]
        (some [0x52, 0x49, 0x46, 0x46, 0, 0, 0, 0, 0x57, 0x45, 0x42, 0x50, 5])
        (istInit memV)).2).events :=
  (C9_webp_unconverted cfgW envWebp "out/x.mp4" [1, 2, 3]
    [0x52, 0x49, 0x46, 0x46, 0, 0, 0, 0, 0x57, 0x45, 0x42, 0x50, 5]
    (istInit memV) rfl (by decide)).1

/-- C10: the existing-output scan adds the stem (with the "_overlayed"
marker removed) of every file anywhere under the output root, error
artifacts included; concretely, a run whose archive fails to open leaves
the raw archive at out/error_zips/<canonical-base>.zip and is counted
failed, and a re-run with skip-existing finds that stem in the set,
skips the item (skipped = 1), performs no new network fetch, and never
retries it. -/
theorem C10_error_artifact_seeds_skip :
    (∀ (g : GSt) (out p : String) (d : Data), (p, d) ∈ g.files →
      underDir out p = true →
      strReplace (stem p) "_overlayed" "" ∈ build_existing_files_set g out) ∧
    (("out/error_zips/2021-06-15_12-00-00_v1.zip", Data.raw [7, 7, 7, 7]) ∈
      (download_all cfgW [(memI, envZipBad)] gEmpty).files ∧
    (download_all cfgW [(memI, envZipBad)] gEmpty).stats.failed = 1 ∧
    (download_all cfgW [(memI, envZipBad)] gEmpty).stats.skipped = 0 ∧
    (download_all cfgW [(memI, envZipBad)]
      (download_all cfgW [(memI, envZipBad)] gEmpty)).stats.skipped = 1 ∧
    (download_all cfgW [(memI, envZipBad)]
      (download_all cfgW [(memI, envZipBad)] gEmpty)).stats.failed = 1 ∧
    (download_all cfgW [(memI, envZipBad)]
        (download_all cfgW [(memI, envZipBad)] gEmpty)).events.filter isFetchEv =
      (download_all cfgW [(memI, envZipBad)] gEmpty).events.filter isFetchEv) := by
  constructor
  · intro g out p d hmem hdir
    unfold build_existing_files_set
    exact List.mem_map.mpr ⟨p,
      List.mem_filter.mpr ⟨List.mem_map.mpr ⟨(p, d), hmem, rfl⟩, hdir⟩, rfl⟩
  · refine ⟨by decide, by decide, by decide, by decide, by decide, by decide⟩

/-- C10 witness: the error artifact of the failed run seeds the skip
set with the item's canonical base name. -/
theorem C10_witness :
    strReplace (stem "out/error_zips/2021-06-15_12-00-00_v1.zip")
      "_overlayed" "" ∈
      build_existing_files_set
        (download_all cfgW [(memI, envZipBad)] gEmpty) "out" :=
  C10_error_artifact_seeds_skip.1
    (download_all cfgW [(memI, envZipBad)] gEmpty) "out"
    "out/error_zips/2021-06-15_12-00-00_v1.zip" (Data.raw [7, 7, 7, 7])
    (by decide) (by decide)

end Snap
